import Mathlib

/-!
OGLRenderer (chapter15/01_opengl_optimize): the instancing pipeline of one frame.

Shallow embedding of `OGLRenderer.cpp`: `setSize`, the input handlers and `draw`.

* Matrices, dual quaternions and vertices are copied but never inspected by the renderer, so the
  embedding is parametric in their types `M`, `Q` and `V`.
* The locals `matrixInstances`, `dualQuatInstances` and `numTriangles` of `draw` are declared
  `unsigned int`; their arithmetic is taken modulo `2^32`.
* Collaborators whose code lives in other files (window, UI, instances, GPU wrappers) appear as
  entries of a call log and, where they return data, as fields of an `Environment`.
* Angles are floating point in the program; they are modelled by exact rationals.
* Timers and log output are left out: they do not influence any value modelled here.
-/

namespace OGLRenderer

/-- Number of values of a C++ `unsigned int` (32 bits). -/
def UINT_RANGE : Nat := 4294967296

/-- Result of `unsigned int` arithmetic: the mathematical result reduced modulo `2^32`. -/
def wrapUInt (n : Nat) : Nat := n % UINT_RANGE

/-- The values of a C++ `unsigned int`. -/
abbrev UnsignedInt : Type := Fin 4294967296

/-- Conversion of an `unsigned int` to `int` (32 bits, two's complement): values below `2^31`
are kept, larger ones come out negative, `2^32` lower. -/
def unsignedToInt (u : UnsignedInt) : Int :=
  if u.val < 2147483648 then (u.val : Int) else (u.val : Int) - 4294967296

/-- The value `sizeof(glm::mat4)`: sixteen 4-byte floats. -/
def sizeofMat4 : Nat := 64

/-- The value `sizeof(glm::mat2x4)`: eight 4-byte floats. -/
def sizeofMat2x4 : Nat := 32

/-- The two enumerators of `skinningMode` used by the renderer. -/
inductive skinningMode
  | linear
  | dualQuat
  deriving DecidableEq, Repr

/-- The fields of `ModelSettings` that the renderer reads (`ModelSettings.h`, lines 6-8); the
animation fields are only passed on to the user interface and the instance. -/
structure ModelSettings where
  msDrawModel : Bool
  msDrawSkeleton : Bool
  msVertexSkinningMode : skinningMode
  deriving DecidableEq, Repr

/-- What the renderer can observe of a `GltfInstance`: its settings, its joint data, its skeleton
mesh and the two sizes it reports. The field `internal` stands for the state the renderer never
reads (node tree, clips, animation clock), as an opaque code. -/
structure GltfInstance (M Q V : Type) where
  internal : Nat
  settings : ModelSettings
  jointMatrices : List M
  jointDualQuats : List Q
  skeleton : List V
  jointMatrixSize : Nat
  jointDualQuatsSize : Nat
  deriving DecidableEq, Repr

/-- The shaders of the renderer: the two skinning shaders and the line shader. -/
inductive Shader
  | gltfGPU
  | gltfGPUDualQuat
  | line
  deriving DecidableEq, Repr

/-- Calls to collaborators, in the order the renderer issues them. -/
inductive Call
  | glfwGetFramebufferSize
  | glfwWaitEvents
  | framebufferResize (width height : Nat)
  | glViewport (width height : Nat)
  | addMouseButtonEvent (button : Int) (pressed : Bool)
  | addMousePosEvent
  | glfwSetInputMode
  | framebufferBind
  | glClear
  | perspective (width height : Int)
  | getViewMatrix
  | updateAnimation (idx : Nat)
  | getInstanceSettings (idx : Nat)
  | getSkeleton (idx : Nat)
  | getWorldPosition (idx : Nat)
  | getWorldRotation (idx : Nat)
  | getVertexData
  | uploadUboData (binding : Nat)
  | getJointDualQuats (idx : Nat)
  | getJointMatrices (idx : Nat)
  | getTriangleCount
  | uploadSsboData (binding : Nat) (elements : Nat)
  | uploadData (vertices : Nat)
  | shaderUse (shader : Shader)
  | getJointMatrixSize (idx : Nat)
  | getJointDualQuatsSize (idx : Nat)
  | setUniformValue (shader : Shader) (value : Nat)
  | drawInstanced (instanceCount : Nat)
  | bindAndDraw (start num : Nat)
  | glDisableDepthTest
  | glEnableDepthTest
  | framebufferUnbind
  | drawToScreen
  | createFrame
  | setInstanceSettings (idx : Nat)
  | checkForUpdates (idx : Nat)
  | uiRender
  deriving DecidableEq, Repr

/-- The fields of `OGLRenderData` that `OGLRenderer.cpp` reads or writes, timing fields excepted. -/
structure OGLRenderData where
  rdWidth : Int
  rdHeight : Int
  rdTriangleCount : Nat
  rdNumberOfInstances : Nat
  rdViewAzimuth : ℚ
  rdViewElevation : ℚ
  rdMoveForward : Int
  rdMoveRight : Int
  rdMoveUp : Int
  rdCurrentSelectedInstance : Int
  deriving DecidableEq, Repr

end OGLRenderer

/-- The members of `OGLRenderer` used by `setSize`, the input handlers and `draw`, the triangle
count reported by the shared model, and the log of collaborator calls. -/
structure OGLRenderer (M Q V : Type) where
  mRenderData : OGLRenderer.OGLRenderData
  mGltfInstances : List (OGLRenderer.GltfInstance M Q V)
  triangleCount : Nat
  mModelJointMatrices : List M
  mModelJointDualQuats : List Q
  mLineMesh : List V
  mCoordArrowsMesh : List V
  mSkeletonLineIndexCount : Nat
  mCoordArrowsLineIndexCount : Nat
  mMouseLock : Bool
  mMouseXPos : Int
  mMouseYPos : Int
  calls : List OGLRenderer.Call
  deriving DecidableEq, Repr

namespace OGLRenderer

variable {M Q V : Type}

/-- Append collaborator calls to the log. -/
def emit (r : OGLRenderer M Q V) (cs : List Call) : OGLRenderer M Q V :=
  { r with calls := r.calls ++ cs }

/-- Embedding of `OGLRenderer::setSize` (lines 137-150). The parameters are `unsigned int`; the
fields `rdWidth` and `rdHeight` are `int` (line 262 passes their addresses to
`glfwGetFramebufferSize`), so the assignments of lines 143-144 convert. -/
def setSize (r : OGLRenderer M Q V) (width height : UnsignedInt) : OGLRenderer M Q V :=
  if width = 0 ∨ height = 0 then
    r
  else
    { r with
      mRenderData := { r.mRenderData with
        rdWidth := unsignedToInt width, rdHeight := unsignedToInt height }
      calls := r.calls ++
        [Call.framebufferResize width.val height.val, Call.glViewport width.val height.val] }

/-- Conversion `static_cast<int>` of a `double`: the fractional part is discarded. -/
def castToInt (x : ℚ) : Int := Int.tdiv x.num (x.den : Int)

/-- Embedding of `OGLRenderer::handleMouseButtonEvents` (lines 159-184); `wantCaptureMouse` is
the flag read from the UI, `GLFW_MOUSE_BUTTON_RIGHT` is 1 and `GLFW_PRESS` is 1,
`ImGuiMouseButton_COUNT` is 5. The calls of `glfwSetInputMode` made on a toggle are logged as
one entry. -/
def handleMouseButtonEvents (r : OGLRenderer M Q V) (button action : Int)
    (wantCaptureMouse : Bool) : OGLRenderer M Q V :=
  let r1 := if 0 ≤ button ∧ button < 5 then
      emit r [Call.addMouseButtonEvent button (decide (action = 1))] else r
  if wantCaptureMouse then
    r1
  else if button = 1 ∧ action = 1 then
    emit { r1 with mMouseLock := !r1.mMouseLock } [Call.glfwSetInputMode]
  else
    r1

/-- Embedding of `OGLRenderer::handleMousePositionEvents` (lines 186-223). -/
def handleMousePositionEvents (r : OGLRenderer M Q V) (xPos yPos : ℚ)
    (wantCaptureMouse : Bool) : OGLRenderer M Q V :=
  let r0 := emit r [Call.addMousePosEvent]
  if wantCaptureMouse then
    r0
  else
    let mouseMoveRelX : Int := castToInt xPos - r0.mMouseXPos
    let mouseMoveRelY : Int := castToInt yPos - r0.mMouseYPos
    let rd0 := r0.mRenderData
    let rd :=
      if r0.mMouseLock then
        let az1 := rd0.rdViewAzimuth + (mouseMoveRelX : ℚ) / 10
        let az2 := if az1 < 0 then az1 + 360 else az1
        let az3 := if az2 ≥ 360 then az2 - 360 else az2
        let el1 := rd0.rdViewElevation - (mouseMoveRelY : ℚ) / 10
        let el2 := if el1 > 89 then 89 else el1
        let el3 := if el2 < -89 then -89 else el2
        { rd0 with rdViewAzimuth := az3, rdViewElevation := el3 }
      else rd0
    { r0 with mRenderData := rd, mMouseXPos := castToInt xPos, mMouseYPos := castToInt yPos }

/-- The keys polled by `handleMovementKeys`. -/
inductive Key
  | GLFW_KEY_W
  | GLFW_KEY_S
  | GLFW_KEY_A
  | GLFW_KEY_D
  | GLFW_KEY_E
  | GLFW_KEY_Q
  | GLFW_KEY_LEFT_SHIFT
  | GLFW_KEY_RIGHT_SHIFT
  deriving DecidableEq, Repr

/-- Embedding of `OGLRenderer::handleMovementKeys` (lines 225-257); `pressed k` says whether
`glfwGetKey` reports `GLFW_PRESS` for `k`. -/
def handleMovementKeys (pressed : Key → Bool) (r : OGLRenderer M Q V) : OGLRenderer M Q V :=
  let f0 : Int := 0
  let f1 := if pressed Key.GLFW_KEY_W then f0 + 1 else f0
  let f2 := if pressed Key.GLFW_KEY_S then f1 - 1 else f1
  let r0 : Int := 0
  let r1 := if pressed Key.GLFW_KEY_A then r0 - 1 else r0
  let r2 := if pressed Key.GLFW_KEY_D then r1 + 1 else r1
  let u0 : Int := 0
  let u1 := if pressed Key.GLFW_KEY_E then u0 + 1 else u0
  let u2 := if pressed Key.GLFW_KEY_Q then u1 - 1 else u1
  let fast := pressed Key.GLFW_KEY_LEFT_SHIFT || pressed Key.GLFW_KEY_RIGHT_SHIFT
  { r with mRenderData := { r.mRenderData with
      rdMoveForward := if fast then f2 * 4 else f2
      rdMoveRight := if fast then r2 * 4 else r2
      rdMoveUp := if fast then u2 * 4 else u2 } }

/-- Events the window hands to the renderer while `glfwWaitEvents` runs. -/
inductive Event
  | resize (width height : UnsignedInt)
  | mouseButton (button action : Int) (wantCaptureMouse : Bool)
  | mousePosition (xPos yPos : ℚ) (wantCaptureMouse : Bool)
  deriving DecidableEq, Repr

/-- Delivery of one window event to the handler of the renderer. -/
def dispatch (r : OGLRenderer M Q V) : Event → OGLRenderer M Q V
  | Event.resize w h => setSize r w h
  | Event.mouseButton b a c => handleMouseButtonEvents r b a c
  | Event.mousePosition x y c => handleMousePositionEvents r x y c

/-- One round of the wait loop as seen from outside: the size `glfwGetFramebufferSize` reports
and the events delivered by the following `glfwWaitEvents`. -/
structure Poll where
  width : Int
  height : Int
  events : List Event
  deriving DecidableEq, Repr

/-- Body of the loop at lines 261-264 of `draw`. -/
def pollOnce (r : OGLRenderer M Q V) (p : Poll) : OGLRenderer M Q V :=
  let r1 := emit { r with mRenderData := { r.mRenderData with
      rdWidth := p.width, rdHeight := p.height } }
    [Call.glfwGetFramebufferSize, Call.glfwWaitEvents]
  p.events.foldl dispatch r1

/-- Outcome of a call of `draw`: a finished frame, still inside the wait loop when the
reports of the window are used up, or left by the exception of a failed `at`. -/
inductive DrawResult (σ : Type)
  | frame (r : σ)
  | waiting (r : σ)
  | outOfRange (r : σ)
  deriving DecidableEq, Repr

/-- Loop condition of line 261. -/
def sizeIsZero (r : OGLRenderer M Q V) : Bool :=
  decide (r.mRenderData.rdWidth = 0) || decide (r.mRenderData.rdHeight = 0)

/-- The loop at lines 261-264 of `draw`, fed with the reports of the window: the state reached
and whether the loop has been left (`false`: every report is consumed and the loop condition
still holds). -/
def waitForSize : OGLRenderer M Q V → List Poll → OGLRenderer M Q V × Bool
  | r, [] => (r, !sizeIsZero r)
  | r, p :: ps => if sizeIsZero r then waitForSize (pollOnce r p) ps else (r, true)

/-- Locals and members written by the skeleton loop (lines 295-307). -/
structure SkeletonPass (V : Type) where
  mSkeletonLineIndexCount : Nat
  vertices : List V
  idx : Nat
  calls : List Call
  deriving DecidableEq, Repr

/-- One iteration of the skeleton loop; the skeleton is inserted at the front of the line
mesh. -/
def skeletonStep (a : SkeletonPass V) (inst : GltfInstance M Q V) : SkeletonPass V :=
  let a0 := { a with idx := a.idx + 1, calls := a.calls ++ [Call.getInstanceSettings a.idx] }
  if inst.settings.msDrawSkeleton then
    { a0 with
      mSkeletonLineIndexCount := a0.mSkeletonLineIndexCount + inst.skeleton.length
      vertices := inst.skeleton ++ a0.vertices
      calls := a0.calls ++ [Call.getSkeleton a.idx] }
  else a0

/-- Locals and members written by the aggregation loop (lines 335-360). -/
structure Aggregation (M Q : Type) where
  mModelJointMatrices : List M
  mModelJointDualQuats : List Q
  matrixInstances : Nat
  dualQuatInstances : Nat
  numTriangles : Nat
  idx : Nat
  calls : List Call
  deriving DecidableEq, Repr

/-- State at line 341: both buffers cleared, the three `unsigned int` counters zero. -/
def Aggregation.start : Aggregation M Q :=
  { mModelJointMatrices := [], mModelJointDualQuats := [], matrixInstances := 0,
    dualQuatInstances := 0, numTriangles := 0, idx := 0, calls := [] }

/-- One iteration of the aggregation loop (lines 342-360). -/
def aggregateStep (triangleCount : Nat) (a : Aggregation M Q) (inst : GltfInstance M Q V) :
    Aggregation M Q :=
  let a0 := { a with idx := a.idx + 1, calls := a.calls ++ [Call.getInstanceSettings a.idx] }
  if !inst.settings.msDrawModel then
    a0
  else
    let a1 :=
      if inst.settings.msVertexSkinningMode = skinningMode.dualQuat then
        { a0 with
          mModelJointDualQuats := a0.mModelJointDualQuats ++ inst.jointDualQuats
          dualQuatInstances := wrapUInt (a0.dualQuatInstances + 1)
          calls := a0.calls ++ [Call.getJointDualQuats a.idx] }
      else
        { a0 with
          mModelJointMatrices := a0.mModelJointMatrices ++ inst.jointMatrices
          matrixInstances := wrapUInt (a0.matrixInstances + 1)
          calls := a0.calls ++ [Call.getJointMatrices a.idx] }
    { a1 with
      numTriangles := wrapUInt (a1.numTriangles + triangleCount)
      calls := a1.calls ++ [Call.getTriangleCount] }

/-- The aggregation loop over the instance list, started from cleared buffers. -/
def aggregate (triangleCount : Nat) (insts : List (GltfInstance M Q V)) : Aggregation M Q :=
  insts.foldl (aggregateStep triangleCount) Aggregation.start

/-- Collaborators of `draw` that return data: key state, the animation tick of an instance, the
coordinate-arrow model and its placement at the selected instance, the user interface and
`checkForUpdates`. -/
structure Environment (M Q V : Type) where
  pressed : Key → Bool
  updateAnimation : GltfInstance M Q V → GltfInstance M Q V
  getVertexData : List V
  placeArrow : GltfInstance M Q V → V → V
  createFrame : OGLRenderData → ModelSettings → OGLRenderData × ModelSettings
  checkForUpdates : GltfInstance M Q V → GltfInstance M Q V

/-- The access `mGltfInstances.at(i)` with an `int` index: it throws unless
`0 <= i < size()`. -/
def instanceAt (insts : List (GltfInstance M Q V)) (i : Int) : Option (GltfInstance M Q V) :=
  if 0 ≤ i then insts[i.toNat]? else none

/-- Lines 115-118 of `init`: the size in bytes declared for the joint matrix buffer, computed
from the list of instances that `init` has created. -/
def modelJointMatrixBufferSize (insts : List (GltfInstance M Q V)) : Option Nat :=
  (instanceAt insts 0).map fun first => insts.length * first.jointMatrixSize * sizeofMat4

/-- Lines 119-120 of `init`: the size in bytes declared for the dual quaternion buffer. -/
def modelJointDualQuatBufferSize (insts : List (GltfInstance M Q V)) : Option Nat :=
  (instanceAt insts 0).map fun first => insts.length * first.jointDualQuatsSize * sizeofMat2x4

/-- Lines 266-403 of `draw`: the scene rendered once the wait loop is left. The result is the
renderer state after the blit together with the local `selectedInstance`, or the state in which
a failed `at` throws. -/
def drawScene (env : Environment M Q V) (r : OGLRenderer M Q V) :
    Except (OGLRenderer M Q V) (OGLRenderer M Q V × Int) :=
  -- lines 266-288: movement keys, framebuffer, projection and view matrix
  let r0 := handleMovementKeys env.pressed r
  let r1 := emit r0
    [Call.framebufferBind, Call.glClear,
     Call.perspective r0.mRenderData.rdWidth r0.mRenderData.rdHeight, Call.getViewMatrix]
  -- lines 290-293: animate
  let insts := r1.mGltfInstances.map env.updateAnimation
  let r2 := emit { r1 with mGltfInstances := insts }
    ((List.range insts.length).map Call.updateAnimation)
  -- lines 295-307: skeleton lines
  let sk := insts.foldl skeletonStep
    { mSkeletonLineIndexCount := 0, vertices := [], idx := 0, calls := [] }
  let r3 := emit { r2 with
      mLineMesh := sk.vertices, mSkeletonLineIndexCount := sk.mSkeletonLineIndexCount } sk.calls
  -- lines 310-312: selected instance
  let selectedInstance := r3.mRenderData.rdCurrentSelectedInstance
  match instanceAt insts selectedInstance with
  | none => Except.error r3
  | some sel =>
    -- lines 314-325: coordinate arrows
    let arrows := env.getVertexData.map (env.placeArrow sel)
    let r4 := emit { r3 with
        mCoordArrowsMesh := arrows, mCoordArrowsLineIndexCount := arrows.length,
        mLineMesh := r3.mLineMesh ++ arrows }
      [Call.getWorldPosition selectedInstance.toNat, Call.getWorldRotation selectedInstance.toNat,
       Call.getVertexData]
    -- lines 329-374: uniform buffer, aggregation, uploads
    let agg : Aggregation M Q := aggregate r4.triangleCount insts
    let r5 := emit { r4 with
        mModelJointMatrices := agg.mModelJointMatrices,
        mModelJointDualQuats := agg.mModelJointDualQuats,
        mRenderData := { r4.mRenderData with rdTriangleCount := agg.numTriangles } }
      ([Call.uploadUboData 0] ++ agg.calls ++
       [Call.uploadSsboData 1 agg.mModelJointMatrices.length,
        Call.uploadSsboData 2 agg.mModelJointDualQuats.length,
        Call.uploadData r4.mLineMesh.length])
    -- lines 376-384: the two instanced draw calls
    match instanceAt insts 0 with
    | none => Except.error (emit r5 [Call.shaderUse Shader.gltfGPU])
    | some first =>
      let r6 := emit r5
        [Call.shaderUse Shader.gltfGPU, Call.getJointMatrixSize 0,
         Call.setUniformValue Shader.gltfGPU first.jointMatrixSize,
         Call.drawInstanced agg.matrixInstances,
         Call.shaderUse Shader.gltfGPUDualQuat, Call.getJointDualQuatsSize 0,
         Call.setUniformValue Shader.gltfGPUDualQuat first.jointDualQuatsSize,
         Call.drawInstanced agg.dualQuatInstances]
      -- lines 386-403: line drawing and blit
      let r7 := emit r6
        ((if r6.mCoordArrowsLineIndexCount > 0 then
            [Call.shaderUse Shader.line,
             Call.bindAndDraw r6.mSkeletonLineIndexCount r6.mCoordArrowsLineIndexCount]
          else []) ++
         (if r6.mSkeletonLineIndexCount > 0 then
            [Call.glDisableDepthTest, Call.shaderUse Shader.line,
             Call.bindAndDraw 0 r6.mSkeletonLineIndexCount, Call.glEnableDepthTest]
          else []) ++
         [Call.framebufferUnbind, Call.drawToScreen])
      Except.ok (r7, selectedInstance)

/-- Lines 405-416 of `draw`: the user interface edits the render data and the settings of the
selected instance. -/
def drawUserInterface (env : Environment M Q V) (r : OGLRenderer M Q V) (selectedInstance : Int) :
    DrawResult (OGLRenderer M Q V) :=
  match instanceAt r.mGltfInstances selectedInstance with
  | none => DrawResult.outOfRange r
  | some sel =>
    let ui := env.createFrame r.mRenderData sel.settings
    let updated := env.checkForUpdates { sel with settings := ui.2 }
    DrawResult.frame (emit { r with
        mRenderData := ui.1
        mGltfInstances := r.mGltfInstances.set selectedInstance.toNat updated }
      [Call.getInstanceSettings selectedInstance.toNat, Call.createFrame,
       Call.setInstanceSettings selectedInstance.toNat,
       Call.checkForUpdates selectedInstance.toNat, Call.uiRender])

/-- Lines 266-419 of `draw`: the frame produced once the wait loop is left. -/
def drawFrame (env : Environment M Q V) (r : OGLRenderer M Q V) :
    DrawResult (OGLRenderer M Q V) :=
  match drawScene env r with
  | Except.error e => DrawResult.outOfRange e
  | Except.ok (r7, selectedInstance) => drawUserInterface env r7 selectedInstance

/-- Embedding of `OGLRenderer::draw` (lines 259-419). -/
def draw (env : Environment M Q V) (r : OGLRenderer M Q V) (polls : List Poll) :
    DrawResult (OGLRenderer M Q V) :=
  match waitForSize r polls with
  | (r0, false) => DrawResult.waiting r0
  | (r0, true) => drawFrame env r0

/-- The renderer state carried by an outcome of `draw`. -/
def DrawResult.state {σ : Type} : DrawResult σ → σ
  | DrawResult.frame r => r
  | DrawResult.waiting r => r
  | DrawResult.outOfRange r => r

/-- The collaborator calls a step has added to the log, `before` being the log it started
from. -/
def newCalls (before : List Call) (r : OGLRenderer M Q V) : List Call :=
  r.calls.drop before.length

/-- An instance whose model is drawn with joint matrices (lines 344, 348, 353). -/
def usesMatrices (inst : GltfInstance M Q V) : Bool :=
  inst.settings.msDrawModel && decide (inst.settings.msVertexSkinningMode ≠ skinningMode.dualQuat)

/-- An instance whose model is drawn with dual quaternions (lines 344, 348). -/
def usesDualQuats (inst : GltfInstance M Q V) : Bool :=
  inst.settings.msDrawModel && decide (inst.settings.msVertexSkinningMode = skinningMode.dualQuat)

/-- An instance whose model is drawn at all (line 344). -/
def isDrawn (inst : GltfInstance M Q V) : Bool :=
  inst.settings.msDrawModel

/-- The instance counts of the `drawInstanced` calls of a log, in order. -/
def drawInstancedCounts (cs : List Call) : List Nat :=
  cs.filterMap fun c => match c with
    | Call.drawInstanced n => some n
    | _ => none

/-- The operands of the aspect division of the `perspective` calls of a log, in order. -/
def perspectiveOperands (cs : List Call) : List (Int × Int) :=
  cs.filterMap fun c => match c with
    | Call.perspective w h => some (w, h)
    | _ => none

/-- The instances `draw` aggregates: the instance list after the animation tick of lines
290-293. -/
def animated (env : Environment M Q V) (r : OGLRenderer M Q V) : List (GltfInstance M Q V) :=
  r.mGltfInstances.map env.updateAnimation

/-- The index `rdCurrentSelectedInstance` names an instance of the list. -/
def selectionValid (r : OGLRenderer M Q V) : Prop :=
  0 ≤ r.mRenderData.rdCurrentSelectedInstance ∧
    r.mRenderData.rdCurrentSelectedInstance.toNat < r.mGltfInstances.length

instance selectionValidDecidable (r : OGLRenderer M Q V) : Decidable (selectionValid r) := by
  unfold selectionValid; infer_instance

/-- The calls the ordering and counting statements are about: binding the framebuffer, the
projection, the animation tick, reads of joint data, uploads of joint buffers and instanced
draws. -/
@[simp]
def tracked : Call → Bool
  | Call.framebufferBind => true
  | Call.perspective _ _ => true
  | Call.updateAnimation _ => true
  | Call.getJointDualQuats _ => true
  | Call.getJointMatrices _ => true
  | Call.uploadSsboData _ _ => true
  | Call.drawInstanced _ => true
  | _ => false

/-- Reads of the joint data of an instance (lines 349 and 354). -/
@[simp]
def isJointRead : Call → Bool
  | Call.getJointDualQuats _ => true
  | Call.getJointMatrices _ => true
  | _ => false

/-- The calls the aggregation loop can make. -/
@[simp]
def aggregationCall : Call → Bool
  | Call.getInstanceSettings _ => true
  | Call.getJointDualQuats _ => true
  | Call.getJointMatrices _ => true
  | Call.getTriangleCount => true
  | _ => false

/-- A report of the window that leaves the wait loop running: one reported dimension is zero and
every resize event delivered after it has a zero dimension. -/
def Poll.staysZero (p : Poll) : Bool :=
  (decide (p.width = 0) || decide (p.height = 0)) &&
    p.events.all fun e => match e with
      | Event.resize w h => decide (w = 0) || decide (h = 0)
      | _ => true

/-- What the wait loop and the event handlers leave untouched. -/
def sameScene (r r' : OGLRenderer M Q V) : Prop :=
  r'.mGltfInstances = r.mGltfInstances ∧ r'.triangleCount = r.triangleCount ∧
    r'.mRenderData.rdCurrentSelectedInstance = r.mRenderData.rdCurrentSelectedInstance ∧
    ∃ cs, r'.calls = r.calls ++ cs ∧ ∀ c ∈ cs, tracked c = false

/-! ## Sample data -/

/-- An instance with two joints, numbered by `k`. -/
def sampleInstance (drawModel : Bool) (mode : skinningMode) (k : Nat) : GltfInstance Nat Nat Nat :=
  { internal := k
    settings := { msDrawModel := drawModel, msDrawSkeleton := false, msVertexSkinningMode := mode }
    jointMatrices := [10 * k, 10 * k + 1]
    jointDualQuats := [100 * k, 100 * k + 1]
    skeleton := [k]
    jointMatrixSize := 2
    jointDualQuatsSize := 2 }

/-- Collaborators that change nothing: no key pressed, instances at rest, a two-vertex arrow
model, a user interface without input. -/
def sampleEnvironment : Environment Nat Nat Nat :=
  { pressed := fun _ => false
    updateAnimation := fun i => i
    getVertexData := [7, 8]
    placeArrow := fun _ v => v
    createFrame := fun rd s => (rd, s)
    checkForUpdates := fun i => i }

/-- A renderer with the given stored size, a model of `triangles` triangles and the given list
of instances; both joint buffers still hold data of an earlier frame. -/
def sampleRendererWith (width height : Int) (triangles : Nat)
    (insts : List (GltfInstance Nat Nat Nat)) : OGLRenderer Nat Nat Nat :=
  { mRenderData :=
      { rdWidth := width, rdHeight := height, rdTriangleCount := 0,
        rdNumberOfInstances := insts.length, rdViewAzimuth := 0, rdViewElevation := 0,
        rdMoveForward := 0, rdMoveRight := 0, rdMoveUp := 0, rdCurrentSelectedInstance := 0 }
    mGltfInstances := insts
    triangleCount := triangles
    mModelJointMatrices := [99]
    mModelJointDualQuats := [98]
    mLineMesh := []
    mCoordArrowsMesh := []
    mSkeletonLineIndexCount := 0
    mCoordArrowsLineIndexCount := 0
    mMouseLock := true
    mMouseXPos := 0
    mMouseYPos := 0
    calls := [] }

/-- Three drawn instances (two with matrices, one with dual quaternions) and two hidden ones,
of a model with 100 triangles. -/
def sampleRenderer (width height : Int) : OGLRenderer Nat Nat Nat :=
  sampleRendererWith width height 100
    [sampleInstance true skinningMode.linear 1, sampleInstance false skinningMode.linear 2,
     sampleInstance true skinningMode.dualQuat 3, sampleInstance true skinningMode.linear 4,
     sampleInstance false skinningMode.dualQuat 5]

/-- Three drawn instances of a model with `2^31 - 1` triangles. -/
def overflowRenderer : OGLRenderer Nat Nat Nat :=
  sampleRendererWith 800 600 2147483647
    [sampleInstance true skinningMode.linear 1, sampleInstance true skinningMode.linear 2,
     sampleInstance true skinningMode.linear 3]

/-- The sample renderer turned to a view azimuth of 350 degrees, mouse locked, last mouse
position (0, 0). -/
def turnedRenderer : OGLRenderer Nat Nat Nat :=
  { sampleRenderer 800 600 with
    mRenderData := { (sampleRenderer 800 600).mRenderData with rdViewAzimuth := 350 } }

/-! ## The aggregation loop -/

theorem wrapUInt_lt (n : Nat) : wrapUInt n < UINT_RANGE :=
  Nat.mod_lt _ (by decide)

theorem wrapUInt_of_lt {n : Nat} (h : n < UINT_RANGE) : wrapUInt n = n :=
  Nat.mod_eq_of_lt h

theorem aggregateStep_matrices (T : Nat) (a : Aggregation M Q) (inst : GltfInstance M Q V) :
    (aggregateStep T a inst).mModelJointMatrices =
      a.mModelJointMatrices ++ (if usesMatrices inst then inst.jointMatrices else []) := by
  unfold aggregateStep usesMatrices
  cases hd : inst.settings.msDrawModel <;> cases hm : inst.settings.msVertexSkinningMode <;> simp

theorem aggregateStep_dualQuats (T : Nat) (a : Aggregation M Q) (inst : GltfInstance M Q V) :
    (aggregateStep T a inst).mModelJointDualQuats =
      a.mModelJointDualQuats ++ (if usesDualQuats inst then inst.jointDualQuats else []) := by
  unfold aggregateStep usesDualQuats
  cases hd : inst.settings.msDrawModel <;> cases hm : inst.settings.msVertexSkinningMode <;> simp

theorem aggregateStep_matrixInstances (T : Nat) (a : Aggregation M Q)
    (inst : GltfInstance M Q V) :
    (aggregateStep T a inst).matrixInstances =
      (if usesMatrices inst then wrapUInt (a.matrixInstances + 1) else a.matrixInstances) := by
  unfold aggregateStep usesMatrices
  cases hd : inst.settings.msDrawModel <;> cases hm : inst.settings.msVertexSkinningMode <;> simp

theorem aggregateStep_dualQuatInstances (T : Nat) (a : Aggregation M Q)
    (inst : GltfInstance M Q V) :
    (aggregateStep T a inst).dualQuatInstances =
      (if usesDualQuats inst then wrapUInt (a.dualQuatInstances + 1)
        else a.dualQuatInstances) := by
  unfold aggregateStep usesDualQuats
  cases hd : inst.settings.msDrawModel <;> cases hm : inst.settings.msVertexSkinningMode <;> simp

theorem aggregateStep_numTriangles (T : Nat) (a : Aggregation M Q) (inst : GltfInstance M Q V) :
    (aggregateStep T a inst).numTriangles =
      (if isDrawn inst then wrapUInt (a.numTriangles + T) else a.numTriangles) := by
  unfold aggregateStep isDrawn
  cases hd : inst.settings.msDrawModel <;> cases hm : inst.settings.msVertexSkinningMode <;> simp

theorem foldl_matrices (T : Nat) (l : List (GltfInstance M Q V)) (a : Aggregation M Q) :
    (l.foldl (aggregateStep T) a).mModelJointMatrices =
      a.mModelJointMatrices ++
        ((l.filter usesMatrices).map fun i => i.jointMatrices).flatten := by
  induction l generalizing a with
  | nil => simp
  | cons x xs ih =>
    rw [List.foldl_cons, ih, aggregateStep_matrices]
    cases h : usesMatrices x <;> simp [List.filter_cons, h]

theorem foldl_dualQuats (T : Nat) (l : List (GltfInstance M Q V)) (a : Aggregation M Q) :
    (l.foldl (aggregateStep T) a).mModelJointDualQuats =
      a.mModelJointDualQuats ++
        ((l.filter usesDualQuats).map fun i => i.jointDualQuats).flatten := by
  induction l generalizing a with
  | nil => simp
  | cons x xs ih =>
    rw [List.foldl_cons, ih, aggregateStep_dualQuats]
    cases h : usesDualQuats x <;> simp [List.filter_cons, h]

theorem foldl_matrixInstances (T : Nat) (l : List (GltfInstance M Q V)) (a : Aggregation M Q)
    (ha : a.matrixInstances < UINT_RANGE) :
    (l.foldl (aggregateStep T) a).matrixInstances =
      wrapUInt (a.matrixInstances + l.countP usesMatrices) := by
  induction l generalizing a with
  | nil => simp [wrapUInt_of_lt ha]
  | cons x xs ih =>
    rw [List.foldl_cons, ih, aggregateStep_matrixInstances]
    · cases h : usesMatrices x
      · simp [List.countP_cons, h]
      · simp only [List.countP_cons, h, if_true, wrapUInt, UINT_RANGE]
        omega
    · rw [aggregateStep_matrixInstances]
      split
      · exact wrapUInt_lt _
      · exact ha

theorem foldl_dualQuatInstances (T : Nat) (l : List (GltfInstance M Q V)) (a : Aggregation M Q)
    (ha : a.dualQuatInstances < UINT_RANGE) :
    (l.foldl (aggregateStep T) a).dualQuatInstances =
      wrapUInt (a.dualQuatInstances + l.countP usesDualQuats) := by
  induction l generalizing a with
  | nil => simp [wrapUInt_of_lt ha]
  | cons x xs ih =>
    rw [List.foldl_cons, ih, aggregateStep_dualQuatInstances]
    · cases h : usesDualQuats x
      · simp [List.countP_cons, h]
      · simp only [List.countP_cons, h, if_true, wrapUInt, UINT_RANGE]
        omega
    · rw [aggregateStep_dualQuatInstances]
      split
      · exact wrapUInt_lt _
      · exact ha

theorem foldl_numTriangles (T : Nat) (l : List (GltfInstance M Q V)) (a : Aggregation M Q)
    (ha : a.numTriangles < UINT_RANGE) :
    (l.foldl (aggregateStep T) a).numTriangles =
      wrapUInt (a.numTriangles + l.countP isDrawn * T) := by
  induction l generalizing a with
  | nil => simp [wrapUInt_of_lt ha]
  | cons x xs ih =>
    rw [List.foldl_cons, ih, aggregateStep_numTriangles]
    · cases h : isDrawn x
      · simp [List.countP_cons, h]
      · simp only [List.countP_cons, h, if_true, wrapUInt, UINT_RANGE, Nat.add_mul, Nat.one_mul]
        generalize List.countP isDrawn xs * T = k
        omega
    · rw [aggregateStep_numTriangles]
      split
      · exact wrapUInt_lt _
      · exact ha

theorem aggregate_matrices (T : Nat) (l : List (GltfInstance M Q V)) :
    (aggregate T l : Aggregation M Q).mModelJointMatrices =
      ((l.filter usesMatrices).map fun i => i.jointMatrices).flatten := by
  simp [aggregate, foldl_matrices, Aggregation.start]

theorem aggregate_dualQuats (T : Nat) (l : List (GltfInstance M Q V)) :
    (aggregate T l : Aggregation M Q).mModelJointDualQuats =
      ((l.filter usesDualQuats).map fun i => i.jointDualQuats).flatten := by
  simp [aggregate, foldl_dualQuats, Aggregation.start]

theorem aggregate_matrixInstances (T : Nat) (l : List (GltfInstance M Q V)) :
    (aggregate T l : Aggregation M Q).matrixInstances = wrapUInt (l.countP usesMatrices) := by
  unfold aggregate
  rw [foldl_matrixInstances T l _ (by simp [Aggregation.start, UINT_RANGE])]
  simp [Aggregation.start]

theorem aggregate_dualQuatInstances (T : Nat) (l : List (GltfInstance M Q V)) :
    (aggregate T l : Aggregation M Q).dualQuatInstances = wrapUInt (l.countP usesDualQuats) := by
  unfold aggregate
  rw [foldl_dualQuatInstances T l _ (by simp [Aggregation.start, UINT_RANGE])]
  simp [Aggregation.start]

theorem aggregate_numTriangles (T : Nat) (l : List (GltfInstance M Q V)) :
    (aggregate T l : Aggregation M Q).numTriangles = wrapUInt (l.countP isDrawn * T) := by
  unfold aggregate
  rw [foldl_numTriangles T l _ (by simp [Aggregation.start, UINT_RANGE])]
  simp [Aggregation.start]

/-- Every drawn instance is counted in exactly one of the two groups. -/
theorem countP_groups (l : List (GltfInstance M Q V)) :
    l.countP usesMatrices + l.countP usesDualQuats = l.countP isDrawn := by
  induction l with
  | nil => simp
  | cons x xs ih =>
    have key : (if usesMatrices x = true then 1 else 0) +
        (if usesDualQuats x = true then 1 else 0) = (if isDrawn x = true then 1 else 0) := by
      unfold usesMatrices usesDualQuats isDrawn
      cases x.settings.msDrawModel <;> cases x.settings.msVertexSkinningMode <;> simp
    simp only [List.countP_cons]
    omega

/-! ## The wait loop -/

theorem sameScene_refl (r : OGLRenderer M Q V) : sameScene r r :=
  ⟨rfl, rfl, rfl, [], by simp, by simp⟩

theorem sameScene_trans {r1 r2 r3 : OGLRenderer M Q V} (h12 : sameScene r1 r2)
    (h23 : sameScene r2 r3) : sameScene r1 r3 := by
  obtain ⟨a1, a2, a3, cs, a4, a5⟩ := h12
  obtain ⟨b1, b2, b3, ds, b4, b5⟩ := h23
  refine ⟨b1.trans a1, b2.trans a2, b3.trans a3, cs ++ ds, ?_, ?_⟩
  · rw [b4, a4, List.append_assoc]
  · intro c hc
    rcases List.mem_append.mp hc with h | h
    · exact a5 c h
    · exact b5 c h

theorem sameScene_setSize (r : OGLRenderer M Q V) (w h : UnsignedInt) : sameScene r (setSize r w h) := by
  unfold setSize
  split
  · exact sameScene_refl r
  · exact ⟨rfl, rfl, rfl, _, rfl, by simp [tracked]⟩

theorem sameScene_handleMouseButtonEvents (r : OGLRenderer M Q V) (b a : Int) (c : Bool) :
    sameScene r (handleMouseButtonEvents r b a c) := by
  unfold handleMouseButtonEvents
  by_cases h1 : 0 ≤ b ∧ b < 5 <;> by_cases h2 : c = true <;> by_cases h3 : b = 1 ∧ a = 1 <;>
    simp only [h1, h2, h3, if_true, if_false] <;>
    first
      | exact sameScene_refl r
      | exact ⟨rfl, rfl, rfl, _, rfl, by simp [tracked]⟩
      | exact ⟨rfl, rfl, rfl, _, by simp [emit, List.append_assoc]; rfl, by simp [tracked]⟩

theorem sameScene_handleMousePositionEvents (r : OGLRenderer M Q V) (x y : ℚ) (c : Bool) :
    sameScene r (handleMousePositionEvents r x y c) := by
  unfold handleMousePositionEvents
  by_cases h2 : c = true
  · simp only [h2, if_true]
    exact ⟨rfl, rfl, rfl, _, rfl, by simp [tracked]⟩
  · simp only [h2, if_false]
    refine ⟨rfl, rfl, ?_, [Call.addMousePosEvent], rfl, by simp [tracked]⟩
    simp only [emit]
    cases r.mMouseLock <;> simp

theorem sameScene_dispatch (r : OGLRenderer M Q V) (e : Event) : sameScene r (dispatch r e) := by
  cases e with
  | resize w h => exact sameScene_setSize r w h
  | mouseButton b a c => exact sameScene_handleMouseButtonEvents r b a c
  | mousePosition x y c => exact sameScene_handleMousePositionEvents r x y c

theorem sameScene_foldl_dispatch (es : List Event) (r : OGLRenderer M Q V) :
    sameScene r (es.foldl dispatch r) := by
  induction es generalizing r with
  | nil => exact sameScene_refl r
  | cons e es ih => exact sameScene_trans (sameScene_dispatch r e) (ih _)

theorem sameScene_pollOnce (r : OGLRenderer M Q V) (p : Poll) : sameScene r (pollOnce r p) := by
  unfold pollOnce
  refine sameScene_trans ?_ (sameScene_foldl_dispatch _ _)
  exact ⟨rfl, rfl, rfl, _, rfl, by simp [tracked]⟩

theorem sameScene_waitForSize (polls : List Poll) (r : OGLRenderer M Q V) :
    sameScene r (waitForSize r polls).1 := by
  induction polls generalizing r with
  | nil => exact sameScene_refl r
  | cons p ps ih =>
    unfold waitForSize
    split
    · exact sameScene_trans (sameScene_pollOnce r p) (ih _)
    · exact sameScene_refl r

/-- The wait loop is only left with two non-zero dimensions. -/
theorem waitForSize_ready (polls : List Poll) (r : OGLRenderer M Q V)
    (h : (waitForSize r polls).2 = true) : sizeIsZero (waitForSize r polls).1 = false := by
  induction polls generalizing r with
  | nil => simpa [waitForSize] using h
  | cons p ps ih =>
    unfold waitForSize at h ⊢
    split
    · rename_i hz
      simp only [hz, if_true] at h
      exact ih _ h
    · rename_i hz
      simpa using hz

/-- With two non-zero dimensions stored the wait loop is not entered. -/
theorem waitForSize_of_nonzero (polls : List Poll) (r : OGLRenderer M Q V)
    (h : sizeIsZero r = false) : waitForSize r polls = (r, true) := by
  cases polls <;> simp [waitForSize, h]

/-! ## The frame -/

theorem foldl_skeleton_calls (l : List (GltfInstance M Q V)) (a : SkeletonPass V)
    (ha : ∀ c ∈ a.calls, tracked c = false) :
    ∀ c ∈ (l.foldl skeletonStep a).calls, tracked c = false := by
  induction l generalizing a with
  | nil => simpa using ha
  | cons x xs ih =>
    rw [List.foldl_cons]
    apply ih
    intro c hc
    unfold skeletonStep at hc
    cases hs : x.settings.msDrawSkeleton <;> simp [hs] at hc <;> aesop

theorem foldl_aggregate_calls (T : Nat) (l : List (GltfInstance M Q V)) (a : Aggregation M Q)
    (ha : ∀ c ∈ a.calls, aggregationCall c = true) :
    ∀ c ∈ (l.foldl (aggregateStep T) a).calls, aggregationCall c = true := by
  induction l generalizing a with
  | nil => simpa using ha
  | cons x xs ih =>
    rw [List.foldl_cons]
    apply ih
    intro c hc
    unfold aggregateStep at hc
    cases hd : x.settings.msDrawModel <;> cases hm : x.settings.msVertexSkinningMode <;>
      simp [hd, hm] at hc <;> aesop

theorem aggregate_calls (T : Nat) (l : List (GltfInstance M Q V)) :
    ∀ c ∈ (aggregate T l : Aggregation M Q).calls, aggregationCall c = true :=
  foldl_aggregate_calls T l _ (by simp [Aggregation.start])

theorem instanceAt_of_valid (l : List (GltfInstance M Q V)) (i : Int) (h0 : 0 ≤ i)
    (hi : i.toNat < l.length) : ∃ sel first, instanceAt l i = some sel ∧
      instanceAt l 0 = some first := by
  have hpos : 0 < l.length := by omega
  refine ⟨l[i.toNat], l[0], ?_, ?_⟩
  · simp [instanceAt, h0, List.getElem?_eq_getElem hi]
  · simp [instanceAt, List.getElem?_eq_getElem hpos]

/-- Shape of a rendered scene: with a valid selection `drawScene` reaches line 403, the buffers and
the triangle count are those of the aggregation loop, and the log is extended by the calls of
lines 276-403 in program order. -/
theorem drawScene_structure (env : Environment M Q V) (r : OGLRenderer M Q V)
    (hsel : selectionValid r) :
    ∃ r7 first skCalls lineCalls nLine,
      drawScene env r = Except.ok (r7, r.mRenderData.rdCurrentSelectedInstance) ∧
      instanceAt (animated env r) 0 = some first ∧
      r7.mGltfInstances = animated env r ∧
      r7.mModelJointMatrices =
        (aggregate r.triangleCount (animated env r) : Aggregation M Q).mModelJointMatrices ∧
      r7.mModelJointDualQuats =
        (aggregate r.triangleCount (animated env r) : Aggregation M Q).mModelJointDualQuats ∧
      r7.mRenderData.rdTriangleCount =
        (aggregate r.triangleCount (animated env r) : Aggregation M Q).numTriangles ∧
      r7.calls = r.calls ++
        ([Call.framebufferBind, Call.glClear,
          Call.perspective r.mRenderData.rdWidth r.mRenderData.rdHeight, Call.getViewMatrix] ++
         ((List.range (animated env r).length).map Call.updateAnimation ++
          (skCalls ++
           ((aggregate r.triangleCount (animated env r) : Aggregation M Q).calls ++
            ([Call.uploadSsboData 1
                (aggregate r.triangleCount (animated env r) :
                  Aggregation M Q).mModelJointMatrices.length,
              Call.uploadSsboData 2
                (aggregate r.triangleCount (animated env r) :
                  Aggregation M Q).mModelJointDualQuats.length,
              Call.uploadData nLine,
              Call.shaderUse Shader.gltfGPU, Call.getJointMatrixSize 0,
              Call.setUniformValue Shader.gltfGPU first.jointMatrixSize,
              Call.drawInstanced
                (aggregate r.triangleCount (animated env r) : Aggregation M Q).matrixInstances,
              Call.shaderUse Shader.gltfGPUDualQuat, Call.getJointDualQuatsSize 0,
              Call.setUniformValue Shader.gltfGPUDualQuat first.jointDualQuatsSize,
              Call.drawInstanced
                (aggregate r.triangleCount (animated env r) :
                  Aggregation M Q).dualQuatInstances] ++
             lineCalls))))) ∧
      (∀ c ∈ skCalls, tracked c = false) ∧ (∀ c ∈ lineCalls, tracked c = false) := by
  obtain ⟨h0, hi⟩ := hsel
  have hlen : (animated env r).length = r.mGltfInstances.length := by simp [animated]
  obtain ⟨sel, first, hs, hf⟩ :=
    instanceAt_of_valid (animated env r) r.mRenderData.rdCurrentSelectedInstance h0
      (by rw [hlen]; exact hi)
  have hs1 : instanceAt (List.map env.updateAnimation r.mGltfInstances)
      r.mRenderData.rdCurrentSelectedInstance = some sel := hs
  have hf1 : instanceAt (List.map env.updateAnimation r.mGltfInstances) 0 = some first := hf
  have hsk := foldl_skeleton_calls (animated env r)
    { mSkeletonLineIndexCount := 0, vertices := [], idx := 0, calls := [] } (by simp)
  simp only [drawScene, emit, handleMovementKeys, hs1, hf1]
  refine ⟨_, first,
    (List.foldl skeletonStep
      { mSkeletonLineIndexCount := 0, vertices := [], idx := 0, calls := [] }
      (animated env r)).calls ++
      [Call.getWorldPosition r.mRenderData.rdCurrentSelectedInstance.toNat,
       Call.getWorldRotation r.mRenderData.rdCurrentSelectedInstance.toNat, Call.getVertexData,
       Call.uploadUboData 0],
    (if (env.getVertexData.map (env.placeArrow sel)).length > 0 then
        [Call.shaderUse Shader.line,
         Call.bindAndDraw
          (List.foldl skeletonStep
            { mSkeletonLineIndexCount := 0, vertices := [], idx := 0, calls := [] }
            (animated env r)).mSkeletonLineIndexCount
          (env.getVertexData.map (env.placeArrow sel)).length]
      else []) ++
     ((if (List.foldl skeletonStep
            { mSkeletonLineIndexCount := 0, vertices := [], idx := 0, calls := [] }
            (animated env r)).mSkeletonLineIndexCount > 0 then
        [Call.glDisableDepthTest, Call.shaderUse Shader.line,
         Call.bindAndDraw 0
          (List.foldl skeletonStep
            { mSkeletonLineIndexCount := 0, vertices := [], idx := 0, calls := [] }
            (animated env r)).mSkeletonLineIndexCount, Call.glEnableDepthTest]
      else []) ++ [Call.framebufferUnbind, Call.drawToScreen]),
    ((List.foldl skeletonStep
      { mSkeletonLineIndexCount := 0, vertices := [], idx := 0, calls := [] }
      (animated env r)).vertices ++ env.getVertexData.map (env.placeArrow sel)).length,
    rfl, hf, rfl, rfl, rfl, rfl, ?_, ?_, ?_⟩
  · simp only [animated, List.append_assoc, List.cons_append, List.nil_append, List.length_map]
  · intro c hc
    rcases List.mem_append.mp hc with h | h
    · exact hsk c h
    · simp at h
      aesop
  · intro c hc
    simp only [List.mem_append] at hc
    rcases hc with h | h | h
    · split at h <;> simp at h
      aesop
    · split at h <;> simp at h
      aesop
    · simp at h
      aesop
/-- Shape of a produced frame: when the wait loop is left and the selection is valid, `draw`
returns a frame whose buffers are those of the aggregation loop and whose log is the log on
entry followed by the calls of the wait loop and of lines 276-416 in program order. -/
theorem draw_structure (env : Environment M Q V) (r : OGLRenderer M Q V) (polls : List Poll)
    (hready : (waitForSize r polls).2 = true) (hsel : selectionValid r) :
    ∃ r7 r' first waitCalls skCalls lineCalls nLine,
      drawScene env (waitForSize r polls).1 =
        Except.ok (r7, r.mRenderData.rdCurrentSelectedInstance) ∧
      draw env r polls = drawUserInterface env r7 r.mRenderData.rdCurrentSelectedInstance ∧
      draw env r polls = DrawResult.frame r' ∧
      instanceAt (animated env r) 0 = some first ∧
      r7.mRenderData.rdTriangleCount =
        (aggregate r.triangleCount (animated env r) : Aggregation M Q).numTriangles ∧
      r'.mModelJointMatrices =
        (aggregate r.triangleCount (animated env r) : Aggregation M Q).mModelJointMatrices ∧
      r'.mModelJointDualQuats =
        (aggregate r.triangleCount (animated env r) : Aggregation M Q).mModelJointDualQuats ∧
      r'.calls = r.calls ++ (waitCalls ++
        ([Call.framebufferBind, Call.glClear,
          Call.perspective (waitForSize r polls).1.mRenderData.rdWidth
            (waitForSize r polls).1.mRenderData.rdHeight, Call.getViewMatrix] ++
         ((List.range (animated env r).length).map Call.updateAnimation ++
          (skCalls ++
           ((aggregate r.triangleCount (animated env r) : Aggregation M Q).calls ++
            ([Call.uploadSsboData 1
                (aggregate r.triangleCount (animated env r) :
                  Aggregation M Q).mModelJointMatrices.length,
              Call.uploadSsboData 2
                (aggregate r.triangleCount (animated env r) :
                  Aggregation M Q).mModelJointDualQuats.length,
              Call.uploadData nLine,
              Call.shaderUse Shader.gltfGPU, Call.getJointMatrixSize 0,
              Call.setUniformValue Shader.gltfGPU first.jointMatrixSize,
              Call.drawInstanced
                (aggregate r.triangleCount (animated env r) : Aggregation M Q).matrixInstances,
              Call.shaderUse Shader.gltfGPUDualQuat, Call.getJointDualQuatsSize 0,
              Call.setUniformValue Shader.gltfGPUDualQuat first.jointDualQuatsSize,
              Call.drawInstanced
                (aggregate r.triangleCount (animated env r) :
                  Aggregation M Q).dualQuatInstances] ++
             lineCalls)))))) ∧
      (∀ c ∈ waitCalls, tracked c = false) ∧ (∀ c ∈ skCalls, tracked c = false) ∧
      (∀ c ∈ lineCalls, tracked c = false) := by
  obtain ⟨hI, hT, hS, waitCalls, hC, hW⟩ := sameScene_waitForSize polls r
  have hsel0 : selectionValid (waitForSize r polls).1 := by
    unfold selectionValid at hsel ⊢
    rw [hS, hI]
    exact hsel
  have hA : animated env (waitForSize r polls).1 = animated env r := by
    unfold animated
    rw [hI]
  obtain ⟨r7, first, skCalls, lineCalls, nLine, h1, h2, h3, h4, h5, h6, h7, h8, h9⟩ :=
    drawScene_structure env (waitForSize r polls).1 hsel0
  rw [hS] at h1
  rw [hA] at h2 h3
  rw [hA, hT] at h4 h5 h6 h7
  have hdraw : draw env r polls =
      drawUserInterface env r7 r.mRenderData.rdCurrentSelectedInstance := by
    unfold draw drawFrame
    have hp : waitForSize r polls = ((waitForSize r polls).1, true) := by
      rw [← hready]
    rw [hp]
    simp only [h1]
  have hlen : (animated env r).length = r.mGltfInstances.length := by simp [animated]
  obtain ⟨sel, -, hs, -⟩ :=
    instanceAt_of_valid (animated env r) r.mRenderData.rdCurrentSelectedInstance hsel.1
      (by rw [hlen]; exact hsel.2)
  have hui : drawUserInterface env r7 r.mRenderData.rdCurrentSelectedInstance =
      DrawResult.frame (emit { r7 with
        mRenderData := (env.createFrame r7.mRenderData sel.settings).1
        mGltfInstances := r7.mGltfInstances.set r.mRenderData.rdCurrentSelectedInstance.toNat
          (env.checkForUpdates
            { sel with settings := (env.createFrame r7.mRenderData sel.settings).2 }) }
        [Call.getInstanceSettings r.mRenderData.rdCurrentSelectedInstance.toNat,
         Call.createFrame, Call.setInstanceSettings r.mRenderData.rdCurrentSelectedInstance.toNat,
         Call.checkForUpdates r.mRenderData.rdCurrentSelectedInstance.toNat, Call.uiRender]) := by
    unfold drawUserInterface
    rw [h3, hs]
  refine ⟨r7, _, first, waitCalls, skCalls,
    lineCalls ++ [Call.getInstanceSettings r.mRenderData.rdCurrentSelectedInstance.toNat,
         Call.createFrame, Call.setInstanceSettings r.mRenderData.rdCurrentSelectedInstance.toNat,
         Call.checkForUpdates r.mRenderData.rdCurrentSelectedInstance.toNat, Call.uiRender],
    nLine, h1, hdraw, hdraw.trans hui, h2, h6, h4, h5, ?_, hW, h8, ?_⟩
  · simp only [emit, h7, hC, List.append_assoc]
  · intro c hc
    rcases List.mem_append.mp hc with h | h
    · exact h9 c h
    · simp at h
      aesop

/-! ## Reading the log -/

theorem newCalls_append (before cs : List Call) (r : OGLRenderer M Q V)
    (h : r.calls = before ++ cs) : newCalls before r = cs := by
  simp [newCalls, h]

theorem filterMap_eq_nil_of {α β : Type} (f : α → Option β) (l : List α)
    (h : ∀ c ∈ l, f c = none) : l.filterMap f = [] := by
  induction l with
  | nil => rfl
  | cons x xs ih =>
    have hx : f x = none := h x (List.mem_cons_self _ _)
    rw [List.filterMap_cons, hx]
    exact ih fun c hc => h c (List.mem_cons_of_mem _ hc)

theorem drawInstancedCounts_append (a b : List Call) :
    drawInstancedCounts (a ++ b) = drawInstancedCounts a ++ drawInstancedCounts b := by
  simp [drawInstancedCounts]

theorem drawInstancedCounts_untracked (l : List Call) (h : ∀ c ∈ l, tracked c = false) :
    drawInstancedCounts l = [] := by
  apply filterMap_eq_nil_of
  intro c hc
  have := h c hc
  cases c <;> simp_all

theorem drawInstancedCounts_aggregation (l : List Call)
    (h : ∀ c ∈ l, aggregationCall c = true) : drawInstancedCounts l = [] := by
  apply filterMap_eq_nil_of
  intro c hc
  have := h c hc
  cases c <;> simp_all

theorem drawInstancedCounts_updateAnimation (l : List Nat) :
    drawInstancedCounts (l.map Call.updateAnimation) = [] := by
  apply filterMap_eq_nil_of
  intro c hc
  obtain ⟨i, -, rfl⟩ := List.mem_map.mp hc
  rfl

theorem perspectiveOperands_append (a b : List Call) :
    perspectiveOperands (a ++ b) = perspectiveOperands a ++ perspectiveOperands b := by
  simp [perspectiveOperands]

theorem perspectiveOperands_untracked (l : List Call) (h : ∀ c ∈ l, tracked c = false) :
    perspectiveOperands l = [] := by
  apply filterMap_eq_nil_of
  intro c hc
  have := h c hc
  cases c <;> simp_all

theorem perspectiveOperands_aggregation (l : List Call)
    (h : ∀ c ∈ l, aggregationCall c = true) : perspectiveOperands l = [] := by
  apply filterMap_eq_nil_of
  intro c hc
  have := h c hc
  cases c <;> simp_all

theorem perspectiveOperands_updateAnimation (l : List Nat) :
    perspectiveOperands (l.map Call.updateAnimation) = [] := by
  apply filterMap_eq_nil_of
  intro c hc
  obtain ⟨i, -, rfl⟩ := List.mem_map.mp hc
  rfl

/-- The instanced draws of a produced frame are exactly the two of lines 380 and 384, with the
two `unsigned int` counters of the aggregation loop as arguments. -/
theorem draw_drawInstancedCounts (env : Environment M Q V) (r : OGLRenderer M Q V)
    (polls : List Poll) (hready : (waitForSize r polls).2 = true) (hsel : selectionValid r) :
    ∃ r', draw env r polls = DrawResult.frame r' ∧
      drawInstancedCounts (newCalls r.calls r') =
        [wrapUInt ((animated env r).countP usesMatrices),
         wrapUInt ((animated env r).countP usesDualQuats)] := by
  obtain ⟨r7, r', first, waitCalls, skCalls, lineCalls, nLine, -, -, h3, -, -, -, -, h8, h9,
    h10, h11⟩ := draw_structure env r polls hready hsel
  refine ⟨r', h3, ?_⟩
  rw [newCalls_append _ _ _ h8]
  simp only [drawInstancedCounts_append, drawInstancedCounts_untracked _ h9,
    drawInstancedCounts_untracked _ h10, drawInstancedCounts_untracked _ h11,
    drawInstancedCounts_updateAnimation,
    drawInstancedCounts_aggregation _ (aggregate_calls _ _), aggregate_matrixInstances,
    aggregate_dualQuatInstances]
  simp [drawInstancedCounts]

/-! ## Layout of an aggregated buffer -/

theorem flatten_uniform_length {α : Type} (J : Nat) (L : List (List α))
    (h : ∀ l ∈ L, l.length = J) : L.flatten.length = J * L.length := by
  induction L with
  | nil => simp
  | cons x xs ih =>
    have hx : x.length = J := h x (List.mem_cons_self _ _)
    have hxs := ih fun l hl => h l (List.mem_cons_of_mem _ hl)
    rw [List.flatten_cons, List.length_append, hx, hxs, List.length_cons, Nat.mul_succ]
    omega

theorem flatten_uniform_getElem {α : Type} (J : Nat) (L : List (List α))
    (h : ∀ l ∈ L, l.length = J) (k j : Nat) (l : List α) (hk : L[k]? = some l) (hj : j < J) :
    L.flatten[k * J + j]? = l[j]? := by
  induction L generalizing k with
  | nil => simp at hk
  | cons x xs ih =>
    have hx : x.length = J := h x (List.mem_cons_self _ _)
    cases k with
    | zero =>
      simp only [List.getElem?_cons_zero, Option.some.injEq] at hk
      subst hk
      rw [List.flatten_cons, Nat.zero_mul, Nat.zero_add,
        List.getElem?_append_left (by rw [hx]; exact hj)]
    | succ k =>
      simp only [List.getElem?_cons_succ] at hk
      have hle : x.length ≤ (k + 1) * J + j := by
        rw [hx, Nat.succ_mul]
        omega
      rw [List.flatten_cons, List.getElem?_append_right hle]
      have hidx : (k + 1) * J + j - x.length = k * J + j := by
        rw [hx, Nat.succ_mul]
        omega
      rw [hidx]
      exact ih (fun l hl => h l (List.mem_cons_of_mem _ hl)) k hk

theorem uniform_matrices (J : Nat) (A : List (GltfInstance M Q V))
    (h : ∀ inst ∈ A, inst.jointMatrices.length = J) :
    ∀ l ∈ (A.filter usesMatrices).map (fun i => i.jointMatrices), l.length = J := by
  intro l hl
  obtain ⟨i, hi, rfl⟩ := List.mem_map.mp hl
  exact h i (List.mem_of_mem_filter hi)

theorem uniform_dualQuats (J : Nat) (A : List (GltfInstance M Q V))
    (h : ∀ inst ∈ A, inst.jointDualQuats.length = J) :
    ∀ l ∈ (A.filter usesDualQuats).map (fun i => i.jointDualQuats), l.length = J := by
  intro l hl
  obtain ⟨i, hi, rfl⟩ := List.mem_map.mp hl
  exact h i (List.mem_of_mem_filter hi)

theorem aggregate_matrices_length (T J : Nat) (A : List (GltfInstance M Q V))
    (h : ∀ inst ∈ A, inst.jointMatrices.length = J) :
    (aggregate T A : Aggregation M Q).mModelJointMatrices.length = J * A.countP usesMatrices := by
  rw [aggregate_matrices, flatten_uniform_length J _ (uniform_matrices J A h), List.length_map,
    List.countP_eq_length_filter]

theorem aggregate_dualQuats_length (T J : Nat) (A : List (GltfInstance M Q V))
    (h : ∀ inst ∈ A, inst.jointDualQuats.length = J) :
    (aggregate T A : Aggregation M Q).mModelJointDualQuats.length =
      J * A.countP usesDualQuats := by
  rw [aggregate_dualQuats, flatten_uniform_length J _ (uniform_dualQuats J A h), List.length_map,
    List.countP_eq_length_filter]

/-- The tracked calls of a produced frame, other than the animation ticks and the joint reads
of the aggregation loop, are the call binding the framebuffer, the projection, the two uploads
and the two instanced draws. -/
theorem draw_tracked_calls (env : Environment M Q V) (r : OGLRenderer M Q V)
    (polls : List Poll) (hready : (waitForSize r polls).2 = true) (hsel : selectionValid r) :
    ∃ r' first, draw env r polls = DrawResult.frame r' ∧
      instanceAt (animated env r) 0 = some first ∧
      Call.setUniformValue Shader.gltfGPU first.jointMatrixSize ∈ newCalls r.calls r' ∧
      Call.setUniformValue Shader.gltfGPUDualQuat first.jointDualQuatsSize ∈
        newCalls r.calls r' ∧
      ∀ c ∈ newCalls r.calls r', tracked c = true → aggregationCall c = false →
        (∀ i, c ≠ Call.updateAnimation i) →
        c ∈ [Call.framebufferBind,
          Call.perspective (waitForSize r polls).1.mRenderData.rdWidth
            (waitForSize r polls).1.mRenderData.rdHeight,
          Call.uploadSsboData 1
            (aggregate r.triangleCount (animated env r) :
              Aggregation M Q).mModelJointMatrices.length,
          Call.uploadSsboData 2
            (aggregate r.triangleCount (animated env r) :
              Aggregation M Q).mModelJointDualQuats.length,
          Call.drawInstanced
            (aggregate r.triangleCount (animated env r) : Aggregation M Q).matrixInstances,
          Call.drawInstanced
            (aggregate r.triangleCount (animated env r) :
              Aggregation M Q).dualQuatInstances] := by
  obtain ⟨r7, r', first, waitCalls, skCalls, lineCalls, nLine, -, -, h3, h4, -, -, -, h8, h9,
    h10, h11⟩ := draw_structure env r polls hready hsel
  refine ⟨r', first, h3, h4, ?_, ?_, ?_⟩
  · rw [newCalls_append _ _ _ h8]
    simp
  · rw [newCalls_append _ _ _ h8]
    simp
  · rw [newCalls_append _ _ _ h8]
    intro c hc ht ha hu
    simp only [List.mem_append] at hc
    rcases hc with h | h | h | h | h | h | h
    · rw [h9 c h] at ht
      exact absurd ht (by decide)
    · simp only [List.mem_cons, List.mem_singleton, List.not_mem_nil, or_false] at h
      rcases h with h | h | h | h <;> subst h <;> simp at ht ⊢
    · obtain ⟨i, -, rfl⟩ := List.mem_map.mp h
      exact absurd rfl (hu i)
    · rw [h10 c h] at ht
      exact absurd ht (by decide)
    · rw [aggregate_calls _ _ c h] at ha
      exact absurd ha (by decide)
    · simp only [List.mem_cons, List.mem_singleton, List.not_mem_nil, or_false] at h
      rcases h with h | h | h | h | h | h | h | h | h | h | h <;> subst h <;> simp at ht ⊢
    · rw [h11 c h] at ht
      exact absurd ht (by decide)

/-- For fewer than `2^32` instances the counters of the aggregation loop do not wrap. -/
theorem drawInstanced_counts_of_small (env : Environment M Q V) (r : OGLRenderer M Q V)
    (polls : List Poll) (hready : (waitForSize r polls).2 = true) (hsel : selectionValid r)
    (hlt : r.mGltfInstances.length < 4294967296) (r' : OGLRenderer M Q V)
    (hr : draw env r polls = DrawResult.frame r') :
    drawInstancedCounts (newCalls r.calls r') =
      [(animated env r).countP usesMatrices, (animated env r).countP usesDualQuats] := by
  obtain ⟨rc, k1, k2⟩ := draw_drawInstancedCounts env r polls hready hsel
  have e2 : rc = r' := by
    rw [hr] at k1
    exact (DrawResult.frame.inj k1).symm
  rw [e2] at k2
  have hlen : (animated env r).length = r.mGltfInstances.length := by simp [animated]
  have hm : (animated env r).countP usesMatrices < UINT_RANGE :=
    lt_of_le_of_lt (List.countP_le_length _) (by rw [hlen]; exact hlt)
  have hq : (animated env r).countP usesDualQuats < UINT_RANGE :=
    lt_of_le_of_lt (List.countP_le_length _) (by rw [hlen]; exact hlt)
  rw [k2, wrapUInt_of_lt hm, wrapUInt_of_lt hq]

/-- The frame of the five sample instances fills the matrix buffer with 4 matrices and the
dual quaternion buffer with 2 dual quaternions. -/
theorem buffers_length_sample :
    ∃ r', draw sampleEnvironment (sampleRenderer 800 600) [] = DrawResult.frame r' ∧
      r'.mModelJointMatrices.length = 4 ∧ r'.mModelJointDualQuats.length = 2 := by
  obtain ⟨r7, r', fa, waitCalls, skCalls, lineCalls, nLine, -, -, h3, -, -, h6, h7, -⟩ :=
    draw_structure sampleEnvironment (sampleRenderer 800 600) [] (by decide) (by decide)
  refine ⟨r', h3, ?_, ?_⟩
  · rw [h6, aggregate_matrices]
    decide
  · rw [h7, aggregate_dualQuats]
    decide

/-! ## Order of calls -/

/-- In a log `pre ++ post`, a call that cannot occur in `post` sits at an index inside `pre`. -/
theorem index_in_pre (pre post : List Call) (P : Call → Prop) (hpost : ∀ c ∈ post, ¬ P c)
    (i : Nat) (c : Call) (hi : (pre ++ post)[i]? = some c) (hc : P c) : i < pre.length := by
  by_contra hge
  rw [List.getElem?_append_right (Nat.le_of_not_lt hge)] at hi
  exact hpost c (List.getElem?_mem hi) hc

/-- In a log `pre ++ post`, a call that cannot occur in `pre` sits at an index inside `post`. -/
theorem index_in_post (pre post : List Call) (P : Call → Prop) (hpre : ∀ c ∈ pre, ¬ P c)
    (j : Nat) (c : Call) (hj : (pre ++ post)[j]? = some c) (hc : P c) : pre.length ≤ j := by
  by_contra hlt
  rw [List.getElem?_append_left (Nat.lt_of_not_le hlt)] at hj
  exact hpre c (List.getElem?_mem hj) hc

/-- A member of `pre` has an index of `pre ++ post` inside `pre`. -/
theorem index_of_mem_pre (pre post : List Call) (c : Call) (hc : c ∈ pre) :
    ∃ i, i < pre.length ∧ (pre ++ post)[i]? = some c := by
  obtain ⟨i, hi, hget⟩ := List.mem_iff_getElem.mp hc
  refine ⟨i, hi, ?_⟩
  rw [List.getElem?_append_left hi, List.getElem?_eq_getElem hi, hget]

theorem tracked_of_isJointRead (c : Call) (h : isJointRead c = true) : tracked c = true := by
  cases c <;> simp_all

/-! ## Zero dimensions -/

theorem setSize_of_zero (r : OGLRenderer M Q V) (w h : UnsignedInt) (hz : w = 0 ∨ h = 0) :
    setSize r w h = r := by
  unfold setSize
  rw [if_pos hz]

theorem handleMouseButtonEvents_size (r : OGLRenderer M Q V) (b a : Int) (c : Bool) :
    (handleMouseButtonEvents r b a c).mRenderData.rdWidth = r.mRenderData.rdWidth ∧
      (handleMouseButtonEvents r b a c).mRenderData.rdHeight = r.mRenderData.rdHeight := by
  unfold handleMouseButtonEvents
  by_cases h1 : 0 ≤ b ∧ b < 5 <;> by_cases h2 : c = true <;> by_cases h3 : b = 1 ∧ a = 1 <;>
    simp [h1, h2, h3, emit]

theorem handleMousePositionEvents_size (r : OGLRenderer M Q V) (x y : ℚ) (c : Bool) :
    (handleMousePositionEvents r x y c).mRenderData.rdWidth = r.mRenderData.rdWidth ∧
      (handleMousePositionEvents r x y c).mRenderData.rdHeight = r.mRenderData.rdHeight := by
  unfold handleMousePositionEvents
  by_cases h2 : c = true
  · simp [h2, emit]
  · simp only [h2, if_false, emit]
    cases r.mMouseLock <;> simp

theorem foldl_dispatch_size (es : List Event) (r : OGLRenderer M Q V)
    (hes : (es.all fun e => match e with
      | Event.resize w h => decide (w = 0) || decide (h = 0)
      | _ => true) = true) :
    (es.foldl dispatch r).mRenderData.rdWidth = r.mRenderData.rdWidth ∧
      (es.foldl dispatch r).mRenderData.rdHeight = r.mRenderData.rdHeight := by
  induction es generalizing r with
  | nil => exact ⟨rfl, rfl⟩
  | cons e es ih =>
    rw [List.all_cons, Bool.and_eq_true] at hes
    rw [List.foldl_cons]
    have hstep : (dispatch r e).mRenderData.rdWidth = r.mRenderData.rdWidth ∧
        (dispatch r e).mRenderData.rdHeight = r.mRenderData.rdHeight := by
      cases e with
      | resize w h =>
        have hz : w = 0 ∨ h = 0 := by simpa using hes.1
        simp [dispatch, setSize_of_zero r w h hz]
      | mouseButton b a c => exact handleMouseButtonEvents_size r b a c
      | mousePosition x y c => exact handleMousePositionEvents_size r x y c
    obtain ⟨h1, h2⟩ := ih (dispatch r e) hes.2
    exact ⟨h1.trans hstep.1, h2.trans hstep.2⟩

theorem pollOnce_staysZero (r : OGLRenderer M Q V) (p : Poll) (hp : p.staysZero = true) :
    sizeIsZero (pollOnce r p) = true := by
  unfold Poll.staysZero at hp
  rw [Bool.and_eq_true] at hp
  obtain ⟨h1, h2⟩ := foldl_dispatch_size p.events
    (emit { r with mRenderData := { r.mRenderData with
      rdWidth := p.width, rdHeight := p.height } }
      [Call.glfwGetFramebufferSize, Call.glfwWaitEvents]) hp.2
  unfold sizeIsZero pollOnce
  rw [h1, h2]
  exact hp.1

/-- While every report of the window keeps a zero dimension the wait loop is not left. -/
theorem waitForSize_waiting (polls : List Poll) (r : OGLRenderer M Q V)
    (hz : sizeIsZero r = true) (hp : ∀ p ∈ polls, p.staysZero = true) :
    (waitForSize r polls).2 = false := by
  induction polls generalizing r with
  | nil => simp [waitForSize, hz]
  | cons p ps ih =>
    unfold waitForSize
    rw [if_pos hz]
    exact ih _ (pollOnce_staysZero r p (hp p (List.mem_cons_self _ _)))
      fun q hq => hp q (List.mem_cons_of_mem _ hq)

theorem draw_of_not_ready (env : Environment M Q V) (r : OGLRenderer M Q V) (polls : List Poll)
    (h : (waitForSize r polls).2 = false) :
    draw env r polls = DrawResult.waiting (waitForSize r polls).1 := by
  unfold draw
  have hp : waitForSize r polls = ((waitForSize r polls).1, false) := by
    rw [← h]
  rw [hp]

theorem draw_of_ready (env : Environment M Q V) (r : OGLRenderer M Q V) (polls : List Poll)
    (h : (waitForSize r polls).2 = true) :
    draw env r polls = drawFrame env (waitForSize r polls).1 := by
  unfold draw
  have hp : waitForSize r polls = ((waitForSize r polls).1, true) := by
    rw [← h]
  rw [hp]

theorem instanceAt_of_invalid (l : List (GltfInstance M Q V)) (i : Int)
    (h : ¬ (0 ≤ i ∧ i.toNat < l.length)) : instanceAt l i = none := by
  unfold instanceAt
  by_cases h0 : 0 ≤ i
  · rw [if_pos h0]
    exact List.getElem?_eq_none (Nat.le_of_not_lt fun hlt => h ⟨h0, hlt⟩)
  · rw [if_neg h0]

/-- With an invalid selection `draw` is left by the exception of line 311, after the projection,
the animation ticks and the skeleton loop. -/
theorem drawFrame_of_invalid (env : Environment M Q V) (r : OGLRenderer M Q V)
    (hsel : ¬ selectionValid r) :
    ∃ r3 skCalls, drawFrame env r = DrawResult.outOfRange r3 ∧
      r3.calls = r.calls ++
        ([Call.framebufferBind, Call.glClear,
          Call.perspective r.mRenderData.rdWidth r.mRenderData.rdHeight, Call.getViewMatrix] ++
         ((List.range (animated env r).length).map Call.updateAnimation ++ skCalls)) ∧
      ∀ c ∈ skCalls, tracked c = false := by
  have hnone : instanceAt (List.map env.updateAnimation r.mGltfInstances)
      r.mRenderData.rdCurrentSelectedInstance = none := by
    apply instanceAt_of_invalid
    rw [List.length_map]
    exact hsel
  have hsk := foldl_skeleton_calls (animated env r)
    { mSkeletonLineIndexCount := 0, vertices := [], idx := 0, calls := [] } (by simp)
  simp only [drawFrame, drawScene, emit, handleMovementKeys, hnone]
  refine ⟨_, _, rfl, ?_, hsk⟩
  simp only [animated, List.append_assoc]

/-- Every projection computed by `draw`, whatever its outcome, is computed after the wait loop
has been left, from the dimensions stored at that point. -/
theorem draw_perspective (env : Environment M Q V) (r : OGLRenderer M Q V) (polls : List Poll)
    (w h : Int) (hmem : Call.perspective w h ∈ newCalls r.calls (draw env r polls).state) :
    (waitForSize r polls).2 = true ∧ w = (waitForSize r polls).1.mRenderData.rdWidth ∧
      h = (waitForSize r polls).1.mRenderData.rdHeight := by
  obtain ⟨-, -, -, waitCalls, hC, hW⟩ := sameScene_waitForSize polls r
  cases hready : (waitForSize r polls).2 with
  | false =>
    rw [draw_of_not_ready env r polls hready] at hmem
    rw [show (DrawResult.waiting (waitForSize r polls).1).state = (waitForSize r polls).1 from rfl,
      newCalls_append _ _ _ hC] at hmem
    exact absurd (hW _ hmem) (by simp)
  | true =>
    refine ⟨rfl, ?_⟩
    by_cases hsel : selectionValid r
    · obtain ⟨rb, fb, g1, -, -, -, g5⟩ := draw_tracked_calls env r polls hready hsel
      rw [g1] at hmem
      have hcase := g5 _ hmem rfl rfl (fun i => by simp)
      simpa using hcase
    · have hsel0 : ¬ selectionValid (waitForSize r polls).1 := by
        obtain ⟨hI, -, hS, -⟩ := sameScene_waitForSize polls r
        unfold selectionValid at hsel ⊢
        rw [hS, hI]
        exact hsel
      obtain ⟨r3, skCalls, k1, k2, k3⟩ := drawFrame_of_invalid env (waitForSize r polls).1 hsel0
      rw [draw_of_ready env r polls hready, k1] at hmem
      have hcalls : r3.calls = r.calls ++ (waitCalls ++
          ([Call.framebufferBind, Call.glClear,
            Call.perspective (waitForSize r polls).1.mRenderData.rdWidth
              (waitForSize r polls).1.mRenderData.rdHeight, Call.getViewMatrix] ++
           ((List.range (animated env (waitForSize r polls).1).length).map
              Call.updateAnimation ++ skCalls))) := by
        rw [k2, hC, List.append_assoc]
      rw [show (DrawResult.outOfRange r3).state = r3 from rfl,
        newCalls_append _ _ _ hcalls] at hmem
      simp only [List.mem_append] at hmem
      rcases hmem with g | g | g | g
      · exact absurd (hW _ g) (by simp)
      · simpa using g
      · simp at g
      · exact absurd (k3 _ g) (by simp)

/-- The projection of a produced frame is computed once, from the dimensions stored when the
wait loop is left. -/
theorem draw_perspectiveOperands (env : Environment M Q V) (r : OGLRenderer M Q V)
    (polls : List Poll) (hready : (waitForSize r polls).2 = true) (hsel : selectionValid r) :
    ∃ r', draw env r polls = DrawResult.frame r' ∧
      Call.framebufferBind ∈ newCalls r.calls r' ∧
      perspectiveOperands (newCalls r.calls r') =
        [((waitForSize r polls).1.mRenderData.rdWidth,
          (waitForSize r polls).1.mRenderData.rdHeight)] := by
  obtain ⟨r7, r', first, waitCalls, skCalls, lineCalls, nLine, -, -, h3, -, -, -, -, h8, h9,
    h10, h11⟩ := draw_structure env r polls hready hsel
  refine ⟨r', h3, ?_, ?_⟩
  · rw [newCalls_append _ _ _ h8]
    simp
  · rw [newCalls_append _ _ _ h8]
    simp only [perspectiveOperands_append, perspectiveOperands_untracked _ h9,
      perspectiveOperands_untracked _ h10, perspectiveOperands_untracked _ h11,
      perspectiveOperands_updateAnimation,
      perspectiveOperands_aggregation _ (aggregate_calls _ _)]
    simp [perspectiveOperands]

/-- Whenever the wait loop is left, `draw` computes the projection exactly once, from the
dimensions stored at that point, also when it is then left by the exception of line 311. -/
theorem draw_perspectiveOperands_all (env : Environment M Q V) (r : OGLRenderer M Q V)
    (polls : List Poll) (hready : (waitForSize r polls).2 = true) :
    perspectiveOperands (newCalls r.calls (draw env r polls).state) =
      [((waitForSize r polls).1.mRenderData.rdWidth,
        (waitForSize r polls).1.mRenderData.rdHeight)] := by
  by_cases hsel : selectionValid r
  · obtain ⟨r', h1, -, h3⟩ := draw_perspectiveOperands env r polls hready hsel
    rw [h1]
    exact h3
  · obtain ⟨hI, -, hS, waitCalls, hC, hW⟩ := sameScene_waitForSize polls r
    have hsel0 : ¬ selectionValid (waitForSize r polls).1 := by
      unfold selectionValid at hsel ⊢
      rw [hS, hI]
      exact hsel
    obtain ⟨r3, skCalls, k1, k2, k3⟩ := drawFrame_of_invalid env (waitForSize r polls).1 hsel0
    have hcalls : r3.calls = r.calls ++ (waitCalls ++
        ([Call.framebufferBind, Call.glClear,
          Call.perspective (waitForSize r polls).1.mRenderData.rdWidth
            (waitForSize r polls).1.mRenderData.rdHeight, Call.getViewMatrix] ++
         ((List.range (animated env (waitForSize r polls).1).length).map
            Call.updateAnimation ++ skCalls))) := by
      rw [k2, hC, List.append_assoc]
    rw [draw_of_ready env r polls hready, k1,
      show (DrawResult.outOfRange r3).state = r3 from rfl, newCalls_append _ _ _ hcalls]
    simp only [perspectiveOperands_append, perspectiveOperands_untracked _ hW,
      perspectiveOperands_untracked _ k3, perspectiveOperands_updateAnimation]
    simp [perspectiveOperands]

/-! ## Claims -/

/-- C1 (amended). When `draw` leaves the wait loop with a valid selection, the value it stores in
`rdTriangleCount` at line 362 (the render data later handed to the user interface) is the number
of instances with `msDrawModel` set times the triangle count of the shared model, reduced
modulo `2^32` because `numTriangles` is an `unsigned int`; it is that product itself whenever
the product is below `2^32`. Hidden instances contribute nothing. -/
theorem triangleCount_stored (env : Environment M Q V) (r : OGLRenderer M Q V)
    (polls : List Poll) (hready : (waitForSize r polls).2 = true) (hsel : selectionValid r) :
    ∃ r7, drawScene env (waitForSize r polls).1 =
        Except.ok (r7, r.mRenderData.rdCurrentSelectedInstance) ∧
      draw env r polls = drawUserInterface env r7 r.mRenderData.rdCurrentSelectedInstance ∧
      r7.mRenderData.rdTriangleCount =
        ((animated env r).countP isDrawn * r.triangleCount) % 4294967296 ∧
      ((animated env r).countP isDrawn * r.triangleCount < 4294967296 →
        r7.mRenderData.rdTriangleCount = (animated env r).countP isDrawn * r.triangleCount) := by
  obtain ⟨r7, r', first, waitCalls, skCalls, lineCalls, nLine, h1, h2, -, -, h5, -⟩ :=
    draw_structure env r polls hready hsel
  have hmod : r7.mRenderData.rdTriangleCount =
      ((animated env r).countP isDrawn * r.triangleCount) % 4294967296 := by
    rw [h5, aggregate_numTriangles]
    rfl
  exact ⟨r7, h1, h2, hmod, fun hlt => by rw [hmod, Nat.mod_eq_of_lt hlt]⟩

/-- Witness for C1: five instances of which three are drawn give three times the triangle count
of the model. -/
theorem triangleCount_stored_witness :
    (waitForSize (sampleRenderer 800 600) []).2 = true ∧ selectionValid (sampleRenderer 800 600) ∧
      ∃ r7, drawScene sampleEnvironment (sampleRenderer 800 600) = Except.ok (r7, 0) ∧
        r7.mRenderData.rdTriangleCount = 3 * 100 := by
  refine ⟨by decide, by decide, ?_⟩
  obtain ⟨r7, h1, -, -, h4⟩ :=
    triangleCount_stored sampleEnvironment (sampleRenderer 800 600) [] (by decide) (by decide)
  exact ⟨r7, h1, h4 (by decide)⟩

/-- C1 as stated fails: with three drawn instances of a model of `2^31 - 1` triangles the
stored count is `2147483645`, not three times the triangle count of the model. -/
theorem triangleCount_stored_counterexample :
    ∃ r7, drawScene sampleEnvironment overflowRenderer = Except.ok (r7, 0) ∧
      (animated sampleEnvironment overflowRenderer).countP isDrawn = 3 ∧
      overflowRenderer.triangleCount = 2147483647 ∧
      r7.mRenderData.rdTriangleCount = 2147483645 ∧
      r7.mRenderData.rdTriangleCount ≠
        (animated sampleEnvironment overflowRenderer).countP isDrawn *
          overflowRenderer.triangleCount := by
  obtain ⟨r7, first, skCalls, lineCalls, nLine, h1, -, -, -, -, h6, -⟩ :=
    drawScene_structure sampleEnvironment overflowRenderer (by decide)
  have hc : (animated sampleEnvironment overflowRenderer).countP isDrawn = 3 := by decide
  have hv : r7.mRenderData.rdTriangleCount = 2147483645 := by
    rw [h6, aggregate_numTriangles, hc]
    rfl
  refine ⟨r7, h1, hc, rfl, hv, ?_⟩
  rw [hv, hc]
  decide

/-- C2. When `draw` leaves the wait loop with a valid selection, the matrix buffer is the
concatenation, in list order, of the joint matrices of exactly the instances with `msDrawModel`
set and a skinning mode other than `dualQuat`, and the dual quaternion buffer is the
concatenation, in list order, of the joint dual quaternions of exactly the instances with
`msDrawModel` set and skinning mode `dualQuat`, whatever the buffers held before. -/
theorem buffers_aggregated (env : Environment M Q V) (r : OGLRenderer M Q V)
    (polls : List Poll) (hready : (waitForSize r polls).2 = true) (hsel : selectionValid r) :
    ∃ r', draw env r polls = DrawResult.frame r' ∧
      r'.mModelJointMatrices =
        (((animated env r).filter fun i =>
            i.settings.msDrawModel &&
              decide (i.settings.msVertexSkinningMode ≠ skinningMode.dualQuat)).map
          fun i => i.jointMatrices).flatten ∧
      r'.mModelJointDualQuats =
        (((animated env r).filter fun i =>
            i.settings.msDrawModel &&
              decide (i.settings.msVertexSkinningMode = skinningMode.dualQuat)).map
          fun i => i.jointDualQuats).flatten := by
  obtain ⟨r7, r', first, waitCalls, skCalls, lineCalls, nLine, -, -, h3, -, -, h6, h7, -⟩ :=
    draw_structure env r polls hready hsel
  refine ⟨r', h3, ?_, ?_⟩
  · rw [h6, aggregate_matrices]
    rfl
  · rw [h7, aggregate_dualQuats]
    rfl

/-- Witness for C2: of the five sample instances the first and the fourth fill the matrix
buffer, the third fills the dual quaternion buffer, and the old contents are gone. -/
theorem buffers_aggregated_witness :
    (waitForSize (sampleRenderer 800 600) []).2 = true ∧ selectionValid (sampleRenderer 800 600) ∧
      (sampleRenderer 800 600).mModelJointMatrices = [99] ∧
      ∃ r', draw sampleEnvironment (sampleRenderer 800 600) [] = DrawResult.frame r' ∧
        r'.mModelJointMatrices = [10, 11, 40, 41] ∧ r'.mModelJointDualQuats = [300, 301] := by
  refine ⟨by decide, by decide, rfl, ?_⟩
  obtain ⟨r', h1, h2, h3⟩ :=
    buffers_aggregated sampleEnvironment (sampleRenderer 800 600) [] (by decide) (by decide)
  exact ⟨r', h1, h2.trans (by decide), h3.trans (by decide)⟩

/-- C3. When `draw` leaves the wait loop with a valid selection, on a list of fewer than `2^32`
instances (the list is filled once, by the 1000 iterations of `init`), it issues exactly two
`drawInstanced` calls. The count of the first is the number of instances whose joint matrices
were appended to the matrix buffer, the count of the second is the number of instances whose
dual quaternions were appended to the dual quaternion buffer, and the two counts sum to the
number of instances with `msDrawModel` set. -/
theorem drawInstanced_counts (env : Environment M Q V) (r : OGLRenderer M Q V)
    (polls : List Poll) (hready : (waitForSize r polls).2 = true) (hsel : selectionValid r)
    (hlt : r.mGltfInstances.length < 4294967296) :
    ∃ r' c1 c2, draw env r polls = DrawResult.frame r' ∧
      drawInstancedCounts (newCalls r.calls r') = [c1, c2] ∧
      r'.mModelJointMatrices =
        (((animated env r).filter usesMatrices).map fun i => i.jointMatrices).flatten ∧
      c1 = ((animated env r).filter usesMatrices).length ∧
      r'.mModelJointDualQuats =
        (((animated env r).filter usesDualQuats).map fun i => i.jointDualQuats).flatten ∧
      c2 = ((animated env r).filter usesDualQuats).length ∧
      c1 + c2 = (animated env r).countP fun i => i.settings.msDrawModel := by
  obtain ⟨r7, r', first, waitCalls, skCalls, lineCalls, nLine, -, -, h3, -, -, h6, h7, -⟩ :=
    draw_structure env r polls hready hsel
  have hc := drawInstanced_counts_of_small env r polls hready hsel hlt r' h3
  refine ⟨r', _, _, h3, hc, ?_, List.countP_eq_length_filter _ _, ?_,
    List.countP_eq_length_filter _ _, countP_groups _⟩
  · rw [h6, aggregate_matrices]
  · rw [h7, aggregate_dualQuats]

/-- Witness for C3: two drawn instances with matrices, one drawn with dual quaternions and two
hidden ones give the counts `(2, 1)`. -/
theorem drawInstanced_counts_witness :
    (waitForSize (sampleRenderer 800 600) []).2 = true ∧ selectionValid (sampleRenderer 800 600) ∧
      (sampleRenderer 800 600).mGltfInstances.length < 4294967296 ∧
      ∃ r', draw sampleEnvironment (sampleRenderer 800 600) [] = DrawResult.frame r' ∧
        drawInstancedCounts (newCalls (sampleRenderer 800 600).calls r') = [2, 1] := by
  refine ⟨by decide, by decide, by decide, ?_⟩
  obtain ⟨r', c1, c2, h1, hc, -, e1, -, e2, -⟩ :=
    drawInstanced_counts sampleEnvironment (sampleRenderer 800 600) [] (by decide) (by decide)
      (by decide)
  rw [e1, e2] at hc
  exact ⟨r', h1, hc.trans (by decide)⟩

/-- C4. Let `initial` be the instance list `init` has created, of the same length as the list
that is drawn, and let every instance have at aggregation time as many joint matrices and dual
quaternions as instance 0 of `initial` reports. Then a produced frame uploads each joint buffer
exactly once, the matrix buffer to binding 1 and the dual quaternion buffer to binding 2, and
the byte size of each upload is at most the size `init` has declared for that buffer. -/
theorem upload_within_declared_size (env : Environment M Q V) (r : OGLRenderer M Q V)
    (polls : List Poll) (initial : List (GltfInstance M Q V)) (first : GltfInstance M Q V)
    (hready : (waitForSize r polls).2 = true) (hsel : selectionValid r)
    (hN : r.mGltfInstances.length = initial.length)
    (hfirst : instanceAt initial 0 = some first)
    (hM : ∀ inst ∈ animated env r, inst.jointMatrices.length = first.jointMatrixSize)
    (hQ : ∀ inst ∈ animated env r, inst.jointDualQuats.length = first.jointDualQuatsSize) :
    ∃ r', draw env r polls = DrawResult.frame r' ∧
      modelJointMatrixBufferSize initial =
        some (initial.length * first.jointMatrixSize * sizeofMat4) ∧
      modelJointDualQuatBufferSize initial =
        some (initial.length * first.jointDualQuatsSize * sizeofMat2x4) ∧
      Call.uploadSsboData 1 r'.mModelJointMatrices.length ∈ newCalls r.calls r' ∧
      Call.uploadSsboData 2 r'.mModelJointDualQuats.length ∈ newCalls r.calls r' ∧
      ∀ b n, Call.uploadSsboData b n ∈ newCalls r.calls r' →
        (b = 1 ∧ n = r'.mModelJointMatrices.length ∧
          n * sizeofMat4 ≤ initial.length * first.jointMatrixSize * sizeofMat4) ∨
        (b = 2 ∧ n = r'.mModelJointDualQuats.length ∧
          n * sizeofMat2x4 ≤ initial.length * first.jointDualQuatsSize * sizeofMat2x4) := by
  obtain ⟨r7, r', fa, waitCalls, skCalls, lineCalls, nLine, -, -, h3, -, -, h6, h7, h8, -⟩ :=
    draw_structure env r polls hready hsel
  obtain ⟨rb, fb, g1, -, -, -, g5⟩ := draw_tracked_calls env r polls hready hsel
  have e1 : rb = r' := by
    rw [h3] at g1
    exact (DrawResult.frame.inj g1).symm
  rw [e1] at g5
  have hlen : (animated env r).length = initial.length := by
    rw [← hN]
    simp [animated]
  have hlenM := aggregate_matrices_length r.triangleCount first.jointMatrixSize _ hM
  have hlenQ := aggregate_dualQuats_length r.triangleCount first.jointDualQuatsSize _ hQ
  have hcM : (animated env r).countP usesMatrices ≤ initial.length := by
    rw [← hlen]
    exact List.countP_le_length _
  have hcQ : (animated env r).countP usesDualQuats ≤ initial.length := by
    rw [← hlen]
    exact List.countP_le_length _
  refine ⟨r', h3, ?_, ?_, ?_, ?_, ?_⟩
  · simp [modelJointMatrixBufferSize, hfirst]
  · simp [modelJointDualQuatBufferSize, hfirst]
  · rw [newCalls_append _ _ _ h8, h6]
    simp
  · rw [newCalls_append _ _ _ h8, h7]
    simp
  · intro b n hmem
    have hcase := g5 _ hmem rfl rfl (fun i => by simp)
    simp only [List.mem_cons, List.mem_singleton, List.not_mem_nil, or_false, Call.uploadSsboData.injEq,
      reduceCtorEq, false_or] at hcase
    rcases hcase with ⟨hb, hn⟩ | ⟨hb, hn⟩
    · refine Or.inl ⟨hb, by rw [hn, h6], ?_⟩
      rw [hn, hlenM, Nat.mul_comm first.jointMatrixSize]
      exact Nat.mul_le_mul_right _ (Nat.mul_le_mul_right _ hcM)
    · refine Or.inr ⟨hb, by rw [hn, h7], ?_⟩
      rw [hn, hlenQ, Nat.mul_comm first.jointDualQuatsSize]
      exact Nat.mul_le_mul_right _ (Nat.mul_le_mul_right _ hcQ)

/-- Witness for C4: for the five sample instances with two joints each, `init` declares
`5 * 2 * 64` bytes for the matrix buffer and the frame uploads 4 matrices. -/
theorem upload_within_declared_size_witness :
    (waitForSize (sampleRenderer 800 600) []).2 = true ∧ selectionValid (sampleRenderer 800 600) ∧
      modelJointMatrixBufferSize (sampleRenderer 800 600).mGltfInstances = some 640 ∧
      ∃ r', draw sampleEnvironment (sampleRenderer 800 600) [] = DrawResult.frame r' ∧
        Call.uploadSsboData 1 4 ∈ newCalls (sampleRenderer 800 600).calls r' ∧
        4 * sizeofMat4 ≤ 640 := by
  refine ⟨by decide, by decide, by decide, ?_⟩
  obtain ⟨r', h1, -, -, h4, -, -⟩ :=
    upload_within_declared_size sampleEnvironment (sampleRenderer 800 600) []
      (sampleRenderer 800 600).mGltfInstances (sampleInstance true skinningMode.linear 1)
      (by decide) (by decide) rfl (by decide) (by decide) (by decide)
  obtain ⟨rb, k1, k2, -⟩ :=
    buffers_length_sample
  have e : rb = r' := by
    rw [h1] at k1
    exact (DrawResult.frame.inj k1).symm
  rw [e] at k2
  rw [k2] at h4
  exact ⟨r', h1, h4, by decide⟩

/-- C5. In the calls of one produced frame every instance is ticked, every `updateAnimation`
call precedes every read of joint data, and each `drawInstanced` call comes after the upload of
the matrix buffer to binding 1 and after the upload of the dual quaternion buffer to
binding 2. -/
theorem calls_in_order (env : Environment M Q V) (r : OGLRenderer M Q V)
    (polls : List Poll) (hready : (waitForSize r polls).2 = true) (hsel : selectionValid r) :
    ∃ r', draw env r polls = DrawResult.frame r' ∧
      (∀ k, k < r.mGltfInstances.length → Call.updateAnimation k ∈ newCalls r.calls r') ∧
      (∀ (i j a : Nat) (c : Call), (newCalls r.calls r')[i]? = some (Call.updateAnimation a) →
        (newCalls r.calls r')[j]? = some c → isJointRead c = true → i < j) ∧
      (∀ j n : Nat, (newCalls r.calls r')[j]? = some (Call.drawInstanced n) →
        ∃ i1 i2 : Nat, i1 < j ∧ i2 < j ∧
          (newCalls r.calls r')[i1]? =
            some (Call.uploadSsboData 1 r'.mModelJointMatrices.length) ∧
          (newCalls r.calls r')[i2]? =
            some (Call.uploadSsboData 2 r'.mModelJointDualQuats.length)) := by
  obtain ⟨r7, r', first, waitCalls, skCalls, lineCalls, nLine, -, -, h3, -, -, h6, h7, h8, h9,
    h10, h11⟩ := draw_structure env r polls hready hsel
  have hagg := aggregate_calls r.triangleCount (animated env r) (M := M) (Q := Q)
  have hlen : (animated env r).length = r.mGltfInstances.length := by simp [animated]
  refine ⟨r', h3, ?_, ?_, ?_⟩
  · intro k hk
    rw [newCalls_append _ _ _ h8]
    simp only [List.mem_append, List.mem_map, List.mem_range]
    exact Or.inr (Or.inr (Or.inl ⟨k, by rw [hlen]; exact hk, rfl⟩))
  · intro i j a c hi hj hc
    have hsplit : newCalls r.calls r' =
        (waitCalls ++ ([Call.framebufferBind, Call.glClear,
          Call.perspective (waitForSize r polls).1.mRenderData.rdWidth
            (waitForSize r polls).1.mRenderData.rdHeight, Call.getViewMatrix] ++
          ((List.range (animated env r).length).map Call.updateAnimation ++ skCalls))) ++
        ((aggregate r.triangleCount (animated env r) : Aggregation M Q).calls ++
          ([Call.uploadSsboData 1
              (aggregate r.triangleCount (animated env r) :
                Aggregation M Q).mModelJointMatrices.length,
            Call.uploadSsboData 2
              (aggregate r.triangleCount (animated env r) :
                Aggregation M Q).mModelJointDualQuats.length,
            Call.uploadData nLine,
            Call.shaderUse Shader.gltfGPU, Call.getJointMatrixSize 0,
            Call.setUniformValue Shader.gltfGPU first.jointMatrixSize,
            Call.drawInstanced
              (aggregate r.triangleCount (animated env r) : Aggregation M Q).matrixInstances,
            Call.shaderUse Shader.gltfGPUDualQuat, Call.getJointDualQuatsSize 0,
            Call.setUniformValue Shader.gltfGPUDualQuat first.jointDualQuatsSize,
            Call.drawInstanced
              (aggregate r.triangleCount (animated env r) :
                Aggregation M Q).dualQuatInstances] ++ lineCalls)) := by
      rw [newCalls_append _ _ _ h8]
      simp only [List.append_assoc]
    rw [hsplit] at hi hj
    have hI := index_in_pre _ _ (fun c => ∃ a, c = Call.updateAnimation a) (by
      intro d hd ⟨b, hb⟩
      subst hb
      simp only [List.mem_append] at hd
      rcases hd with h | h | h
      · exact absurd (hagg _ h) (by simp)
      · simp at h
      · exact absurd (h11 _ h) (by simp)) i _ hi ⟨a, rfl⟩
    have hJ := index_in_post _ _ (fun c => isJointRead c = true) (by
      intro d hd hr
      simp only [List.mem_append] at hd
      rcases hd with h | h | h | h
      · have ht := h9 d h
        rw [tracked_of_isJointRead d hr] at ht
        exact Bool.noConfusion ht
      · simp only [List.mem_cons, List.mem_singleton, List.not_mem_nil, or_false] at h
        rcases h with h | h | h | h <;> subst h <;> simp at hr
      · obtain ⟨b, -, rfl⟩ := List.mem_map.mp h
        simp at hr
      · have ht := h10 d h
        rw [tracked_of_isJointRead d hr] at ht
        exact Bool.noConfusion ht) j c hj hc
    omega
  · intro j n hj
    obtain ⟨pre, post, hsplit, hpre, hu1, hu2⟩ : ∃ pre post : List Call,
        newCalls r.calls r' = pre ++ post ∧ (∀ c ∈ pre, ¬ ∃ n, c = Call.drawInstanced n) ∧
        Call.uploadSsboData 1 r'.mModelJointMatrices.length ∈ pre ∧
        Call.uploadSsboData 2 r'.mModelJointDualQuats.length ∈ pre := by
      refine ⟨waitCalls ++ ([Call.framebufferBind, Call.glClear,
          Call.perspective (waitForSize r polls).1.mRenderData.rdWidth
            (waitForSize r polls).1.mRenderData.rdHeight, Call.getViewMatrix] ++
          ((List.range (animated env r).length).map Call.updateAnimation ++ (skCalls ++
            ((aggregate r.triangleCount (animated env r) : Aggregation M Q).calls ++
              [Call.uploadSsboData 1 r'.mModelJointMatrices.length,
               Call.uploadSsboData 2 r'.mModelJointDualQuats.length,
               Call.uploadData nLine])))),
        [Call.shaderUse Shader.gltfGPU, Call.getJointMatrixSize 0,
            Call.setUniformValue Shader.gltfGPU first.jointMatrixSize,
            Call.drawInstanced
              (aggregate r.triangleCount (animated env r) : Aggregation M Q).matrixInstances,
            Call.shaderUse Shader.gltfGPUDualQuat, Call.getJointDualQuatsSize 0,
            Call.setUniformValue Shader.gltfGPUDualQuat first.jointDualQuatsSize,
            Call.drawInstanced
              (aggregate r.triangleCount (animated env r) :
                Aggregation M Q).dualQuatInstances] ++ lineCalls, ?_, ?_, ?_, ?_⟩
      · rw [newCalls_append _ _ _ h8, h6, h7]
        simp only [List.append_assoc, List.cons_append, List.nil_append]
      · intro d hd ⟨m, hm⟩
        subst hm
        simp only [List.mem_append] at hd
        rcases hd with h | h | h | h | h | h
        · exact absurd (h9 _ h) (by simp)
        · simp at h
        · simp at h
        · exact absurd (h10 _ h) (by simp)
        · exact absurd (hagg _ h) (by simp)
        · simp at h
      · simp
      · simp
    rw [hsplit] at hj ⊢
    have hJ := index_in_post pre post (fun c => ∃ n, c = Call.drawInstanced n) hpre j _ hj
      ⟨n, rfl⟩
    obtain ⟨i1, hi1, hg1⟩ := index_of_mem_pre pre post _ hu1
    obtain ⟨i2, hi2, hg2⟩ := index_of_mem_pre pre post _ hu2
    exact ⟨i1, i2, lt_of_lt_of_le hi1 hJ, lt_of_lt_of_le hi2 hJ, hg1, hg2⟩

/-- Witness for C5: in the frame of the five sample instances the last instance is ticked and
exactly two instanced draws follow the uploads. -/
theorem calls_in_order_witness :
    (waitForSize (sampleRenderer 800 600) []).2 = true ∧ selectionValid (sampleRenderer 800 600) ∧
      ∃ r', draw sampleEnvironment (sampleRenderer 800 600) [] = DrawResult.frame r' ∧
        Call.updateAnimation 4 ∈ newCalls (sampleRenderer 800 600).calls r' := by
  refine ⟨by decide, by decide, ?_⟩
  obtain ⟨r', h1, h2, -, -⟩ :=
    calls_in_order sampleEnvironment (sampleRenderer 800 600) [] (by decide) (by decide)
  exact ⟨r', h1, h2 4 (by decide)⟩

/-- C6 (amended). A call `setSize(w, h)` with a zero width or height is ignored: the next `draw`
behaves as if the call had not been made. If both stored dimensions are non-zero it produces a
frame with the stored dimensions (it binds the framebuffer and computes the projection from
them). Only if a stored dimension is zero does `draw` stay in its wait loop, without binding
the framebuffer, computing a projection or issuing a draw call, for as long as the window
reports a zero dimension and delivers no resize event with two non-zero dimensions. -/
theorem zero_resize_ignored (env : Environment M Q V) (r : OGLRenderer M Q V)
    (polls : List Poll) (w h : UnsignedInt) (hz : w = 0 ∨ h = 0) :
    draw env (setSize r w h) polls = draw env r polls ∧
      (sizeIsZero r = false → selectionValid r →
        ∃ r', draw env (setSize r w h) polls = DrawResult.frame r' ∧
          Call.framebufferBind ∈ newCalls r.calls r' ∧
          perspectiveOperands (newCalls r.calls r') =
            [(r.mRenderData.rdWidth, r.mRenderData.rdHeight)]) ∧
      (sizeIsZero r = true → (∀ p ∈ polls, p.staysZero = true) →
        ∃ r', draw env (setSize r w h) polls = DrawResult.waiting r' ∧
          ∀ c ∈ newCalls r.calls r', tracked c = false) := by
  rw [setSize_of_zero r w h hz]
  refine ⟨rfl, ?_, ?_⟩
  · intro hnz hsel
    have hw := waitForSize_of_nonzero polls r hnz
    obtain ⟨r', h1, h2, h3⟩ := draw_perspectiveOperands env r polls (by rw [hw]) hsel
    rw [hw] at h3
    exact ⟨r', h1, h2, h3⟩
  · intro hzero hp
    obtain ⟨-, -, -, waitCalls, hC, hW⟩ := sameScene_waitForSize polls r
    refine ⟨_, draw_of_not_ready env r polls (waitForSize_waiting polls r hzero hp), ?_⟩
    rw [newCalls_append _ _ _ hC]
    exact hW

/-- Witness for C6: after `setSize(0, 0)` a renderer storing 800 x 600 draws a frame, and a
renderer storing width 0 waits while the window reports 0 x 0. -/
theorem zero_resize_ignored_witness :
    (∃ r', draw sampleEnvironment (setSize (sampleRenderer 800 600) 0 0) [] =
        DrawResult.frame r' ∧
      perspectiveOperands (newCalls (sampleRenderer 800 600).calls r') = [(800, 600)]) ∧
    (∃ r', draw sampleEnvironment (setSize (sampleRenderer 0 600) 0 0)
        [{ width := 0, height := 0, events := [Event.resize 0 600] }] =
        DrawResult.waiting r' ∧
      ∀ c ∈ newCalls (sampleRenderer 0 600).calls r', tracked c = false) := by
  obtain ⟨-, h2, -⟩ :=
    zero_resize_ignored sampleEnvironment (sampleRenderer 800 600) [] 0 0 (Or.inl rfl)
  obtain ⟨-, -, h3⟩ :=
    zero_resize_ignored sampleEnvironment (sampleRenderer 0 600)
      [{ width := 0, height := 0, events := [Event.resize 0 600] }] 0 0 (Or.inl rfl)
  obtain ⟨r', k1, -, k3⟩ := h2 (by decide) (by decide)
  exact ⟨⟨r', k1, k3⟩, h3 (by decide) (by decide)⟩

/-- C6 as stated fails: after `setSize(0, 0)` on a renderer storing 800 x 600 the next `draw`
produces a frame; it binds the framebuffer, computes the projection from 800 and 600 and
issues both instanced draws. -/
theorem zero_resize_counterexample :
    ∃ r', draw sampleEnvironment (setSize (sampleRenderer 800 600) 0 0) [] =
        DrawResult.frame r' ∧
      Call.framebufferBind ∈ r'.calls ∧ Call.perspective 800 600 ∈ r'.calls ∧
      Call.drawInstanced 2 ∈ r'.calls ∧ Call.drawInstanced 1 ∈ r'.calls := by
  refine ⟨_, rfl, ?_, ?_, ?_, ?_⟩ <;> decide

/-- C7 (amended). A call `setSize(w, h)` with `w = 0` or `h = 0` leaves the renderer unchanged,
call log included (no framebuffer resize, no viewport call). With `w > 0` and `h > 0` it
stores the arguments converted from `unsigned int` to `int`: `rdWidth = w` and `rdHeight = h`
when both are below `2^31`, and `2^32` less for a larger argument. After `setSize(0, 0)`
followed by `setSize(800, 600)` the stored dimensions are 800 x 600 and the next `draw`
computes its projection once, dividing 800 by 600; it returns a frame when the selection is
valid. -/
theorem setSize_stores_size (env : Environment M Q V) (r : OGLRenderer M Q V)
    (polls : List Poll) (w h : UnsignedInt) :
    ((w = 0 ∨ h = 0) → setSize r w h = r) ∧
      ((0 < w.val ∧ 0 < h.val) →
        (setSize r w h).mRenderData.rdWidth = unsignedToInt w ∧
        (setSize r w h).mRenderData.rdHeight = unsignedToInt h ∧
        newCalls r.calls (setSize r w h) =
          [Call.framebufferResize w.val h.val, Call.glViewport w.val h.val]) ∧
      ((0 < w.val ∧ w.val < 2147483648 ∧ 0 < h.val ∧ h.val < 2147483648) →
        (setSize r w h).mRenderData.rdWidth = (w.val : Int) ∧
        (setSize r w h).mRenderData.rdHeight = (h.val : Int)) ∧
      (setSize (setSize r 0 0) 800 600).mRenderData.rdWidth = 800 ∧
      (setSize (setSize r 0 0) 800 600).mRenderData.rdHeight = 600 ∧
      perspectiveOperands (newCalls (setSize (setSize r 0 0) 800 600).calls
        (draw env (setSize (setSize r 0 0) 800 600) polls).state) = [(800, 600)] ∧
      (selectionValid r →
        ∃ r', draw env (setSize (setSize r 0 0) 800 600) polls = DrawResult.frame r') := by
  have hstore : (0 < w.val ∧ 0 < h.val) →
      (setSize r w h).mRenderData.rdWidth = unsignedToInt w ∧
      (setSize r w h).mRenderData.rdHeight = unsignedToInt h ∧
      newCalls r.calls (setSize r w h) =
        [Call.framebufferResize w.val h.val, Call.glViewport w.val h.val] := by
    intro hpos
    have hw : w ≠ 0 := fun e => by rw [e] at hpos; exact absurd hpos.1 (by decide)
    have hh : h ≠ 0 := fun e => by rw [e] at hpos; exact absurd hpos.2 (by decide)
    unfold setSize
    rw [if_neg (by simp [hw, hh])]
    exact ⟨rfl, rfl, newCalls_append _ _ _ rfl⟩
  have hnz : sizeIsZero (setSize (setSize r 0 0) 800 600) = false := rfl
  have hw := waitForSize_of_nonzero polls _ hnz
  refine ⟨setSize_of_zero r w h, hstore, ?_, rfl, rfl, ?_, ?_⟩
  · intro hpos
    obtain ⟨h1, h2, -⟩ := hstore ⟨hpos.1, hpos.2.2.1⟩
    rw [h1, h2]
    unfold unsignedToInt
    rw [if_pos hpos.2.1, if_pos hpos.2.2.2]
    exact ⟨rfl, rfl⟩
  · have hall := draw_perspectiveOperands_all env (setSize (setSize r 0 0) 800 600) polls
      (by rw [hw])
    rw [hw] at hall
    exact hall
  · intro hsel
    have hsel2 : selectionValid (setSize (setSize r 0 0) 800 600) := hsel
    obtain ⟨r', h1, -, -⟩ := draw_perspectiveOperands env _ polls (by rw [hw]) hsel2
    exact ⟨r', h1⟩

/-- Witness for C7: on the sample renderer storing 1024 x 768, `setSize(0, 5)` changes nothing,
`setSize(640, 480)` stores 640 x 480, and after `setSize(0, 0)` and `setSize(800, 600)` the
next `draw` returns a frame that divides 800 by 600. -/
theorem setSize_stores_size_witness :
    setSize (sampleRenderer 1024 768) 0 5 = sampleRenderer 1024 768 ∧
      (setSize (sampleRenderer 1024 768) 640 480).mRenderData.rdWidth = 640 ∧
      (setSize (sampleRenderer 1024 768) 640 480).mRenderData.rdHeight = 480 ∧
      selectionValid (sampleRenderer 1024 768) ∧
      (∃ r', draw sampleEnvironment (setSize (setSize (sampleRenderer 1024 768) 0 0) 800 600) [] =
          DrawResult.frame r') ∧
      perspectiveOperands
        (newCalls (setSize (setSize (sampleRenderer 1024 768) 0 0) 800 600).calls
          (draw sampleEnvironment
            (setSize (setSize (sampleRenderer 1024 768) 0 0) 800 600) []).state) =
        [(800, 600)] := by
  obtain ⟨h1, -, -, -, -, h6, h7⟩ :=
    setSize_stores_size sampleEnvironment (sampleRenderer 1024 768) [] 0 5
  obtain ⟨-, -, h3, -⟩ :=
    setSize_stores_size sampleEnvironment (sampleRenderer 1024 768) [] 640 480
  obtain ⟨k1, k2⟩ := h3 ⟨by decide, by decide, by decide, by decide⟩
  exact ⟨h1 (Or.inl rfl), k1, k2, by decide, h7 (by decide), h6⟩

/-- C7 as stated fails: `setSize(4294967295, 600)` has two positive arguments and stores -1 in
`rdWidth`, not 4294967295. -/
theorem setSize_stores_size_counterexample :
    0 < (4294967295 : UnsignedInt).val ∧ 0 < (600 : UnsignedInt).val ∧
      (setSize (sampleRenderer 1024 768) 4294967295 600).mRenderData.rdWidth = -1 ∧
      (setSize (sampleRenderer 1024 768) 4294967295 600).mRenderData.rdHeight = 600 ∧
      (setSize (sampleRenderer 1024 768) 4294967295 600).mRenderData.rdWidth ≠
        ((4294967295 : UnsignedInt).val : Int) := by
  refine ⟨by decide, by decide, by decide, by decide, by decide⟩

/-- C8. Whatever the renderer state on entry and whatever the window reports and delivers while
`draw` waits, every aspect division `rdWidth / rdHeight` that `draw` performs, in any outcome,
has a non-zero numerator and a non-zero denominator. -/
theorem aspect_operands_nonzero (env : Environment M Q V) (r : OGLRenderer M Q V)
    (polls : List Poll) (w h : Int)
    (hmem : Call.perspective w h ∈ newCalls r.calls (draw env r polls).state) :
    w ≠ 0 ∧ h ≠ 0 := by
  obtain ⟨hready, hw, hh⟩ := draw_perspective env r polls w h hmem
  have hz := waitForSize_ready polls r hready
  unfold sizeIsZero at hz
  rw [Bool.or_eq_false_iff] at hz
  rw [hw, hh]
  exact ⟨by simpa using hz.1, by simpa using hz.2⟩

/-- Witness for C8: a renderer storing width 0 waits through a report of 0 x 0 and a report
followed by a resize to 640 x 480, and then divides 640 by 480. -/
theorem aspect_operands_nonzero_witness :
    Call.perspective 640 480 ∈ newCalls (sampleRenderer 0 600).calls
        (draw sampleEnvironment (sampleRenderer 0 600)
          [{ width := 0, height := 0, events := [] },
           { width := 0, height := 0, events := [Event.resize 640 480] }]).state ∧
      (640 : Int) ≠ 0 ∧ (480 : Int) ≠ 0 := by
  have hmem : Call.perspective 640 480 ∈ newCalls (sampleRenderer 0 600).calls
      (draw sampleEnvironment (sampleRenderer 0 600)
        [{ width := 0, height := 0, events := [] },
         { width := 0, height := 0, events := [Event.resize 640 480] }]).state := by decide
  exact ⟨hmem, aspect_operands_nonzero _ _ _ _ _ hmem⟩

/-- C9 fails on the code. With the mouse locked, a view azimuth of 350 and the last mouse
position at x = 0, a position event at x = 3800 adds 380 degrees; the single correction of
lines 206-208 subtracts 360 once and leaves the azimuth at 370, outside the range
`0 <= a < 360`. -/
theorem azimuth_leaves_range :
    turnedRenderer.mMouseLock = true ∧ turnedRenderer.mMouseXPos = 0 ∧
      0 ≤ turnedRenderer.mRenderData.rdViewAzimuth ∧
      turnedRenderer.mRenderData.rdViewAzimuth < 360 ∧
      (handleMousePositionEvents turnedRenderer 3800 0 false).mRenderData.rdViewAzimuth = 370 ∧
      ¬ (handleMousePositionEvents turnedRenderer 3800 0 false).mRenderData.rdViewAzimuth <
        360 := by
  have hv : (handleMousePositionEvents turnedRenderer 3800 0 false).mRenderData.rdViewAzimuth =
      370 := by
    simp [handleMousePositionEvents, emit, turnedRenderer, sampleRenderer, sampleRendererWith,
      castToInt]
    norm_num
  refine ⟨rfl, rfl, ?_, ?_, hv, ?_⟩
  · simp [turnedRenderer, sampleRenderer, sampleRendererWith]
  · simp only [turnedRenderer, sampleRenderer, sampleRendererWith]
    norm_num
  · rw [hv]
    norm_num

/-- C10. Let the list hold fewer than `2^32` instances (it is filled once, by the 1000
iterations of `init`) and let every instance have as many joint matrices as instance 0 reports
with `getJointMatrixSize()` and as many dual quaternions as it reports with
`getJointDualQuatsSize()`. In a produced frame these two sizes are the stride values sent to the
two skinning shaders, entry `k * J + j` of the matrix buffer is joint matrix `j` of the `k`-th
drawn instance skinned with matrices, and likewise for the dual quaternion buffer; the length of
each buffer is its stride times the count passed to the corresponding `drawInstanced` call. -/
theorem stride_matches_layout (env : Environment M Q V) (r : OGLRenderer M Q V)
    (polls : List Poll) (first : GltfInstance M Q V)
    (hready : (waitForSize r polls).2 = true) (hsel : selectionValid r)
    (hlt : r.mGltfInstances.length < 4294967296)
    (hfirst : instanceAt (animated env r) 0 = some first)
    (hM : ∀ inst ∈ animated env r, inst.jointMatrices.length = first.jointMatrixSize)
    (hQ : ∀ inst ∈ animated env r, inst.jointDualQuats.length = first.jointDualQuatsSize) :
    ∃ r' c1 c2, draw env r polls = DrawResult.frame r' ∧
      Call.setUniformValue Shader.gltfGPU first.jointMatrixSize ∈ newCalls r.calls r' ∧
      Call.setUniformValue Shader.gltfGPUDualQuat first.jointDualQuatsSize ∈
        newCalls r.calls r' ∧
      (∀ k j inst, ((animated env r).filter usesMatrices)[k]? = some inst →
        j < first.jointMatrixSize →
        ∃ m, inst.jointMatrices[j]? = some m ∧
          r'.mModelJointMatrices[k * first.jointMatrixSize + j]? = some m) ∧
      (∀ k j inst, ((animated env r).filter usesDualQuats)[k]? = some inst →
        j < first.jointDualQuatsSize →
        ∃ q, inst.jointDualQuats[j]? = some q ∧
          r'.mModelJointDualQuats[k * first.jointDualQuatsSize + j]? = some q) ∧
      drawInstancedCounts (newCalls r.calls r') = [c1, c2] ∧
      r'.mModelJointMatrices.length = first.jointMatrixSize * c1 ∧
      r'.mModelJointDualQuats.length = first.jointDualQuatsSize * c2 := by
  obtain ⟨r7, r', fa, waitCalls, skCalls, lineCalls, nLine, -, -, h3, h4, -, h6, h7, -⟩ :=
    draw_structure env r polls hready hsel
  obtain ⟨rb, fb, g1, g2, g3, g4, -⟩ := draw_tracked_calls env r polls hready hsel
  obtain ⟨rc, k1, k2⟩ := draw_drawInstancedCounts env r polls hready hsel
  have e1 : rb = r' := by
    rw [h3] at g1
    exact (DrawResult.frame.inj g1).symm
  have e2 : rc = r' := by
    rw [h3] at k1
    exact (DrawResult.frame.inj k1).symm
  have e3 : fb = first := by
    rw [hfirst] at g2
    exact (Option.some.inj g2).symm
  rw [e1, e3] at g3 g4
  rw [e2] at k2
  have hlenM := aggregate_matrices_length r.triangleCount first.jointMatrixSize _ hM
  have hlenQ := aggregate_dualQuats_length r.triangleCount first.jointDualQuatsSize _ hQ
  have hlen : (animated env r).length = r.mGltfInstances.length := by simp [animated]
  have hm : (animated env r).countP usesMatrices < UINT_RANGE :=
    lt_of_le_of_lt (List.countP_le_length _) (by rw [hlen]; exact hlt)
  have hq : (animated env r).countP usesDualQuats < UINT_RANGE :=
    lt_of_le_of_lt (List.countP_le_length _) (by rw [hlen]; exact hlt)
  refine ⟨r', _, _, h3, g3, g4, ?_, ?_, k2, ?_, ?_⟩
  · intro k j inst hk hj
    have hjl : j < inst.jointMatrices.length := by
      rw [hM inst (List.mem_of_mem_filter (List.getElem?_mem hk))]
      exact hj
    refine ⟨inst.jointMatrices[j], List.getElem?_eq_getElem hjl, ?_⟩
    rw [h6, aggregate_matrices,
      flatten_uniform_getElem first.jointMatrixSize _ (uniform_matrices _ _ hM) k j
        inst.jointMatrices (by rw [List.getElem?_map, hk]; rfl) hj]
    exact List.getElem?_eq_getElem hjl
  · intro k j inst hk hj
    have hjl : j < inst.jointDualQuats.length := by
      rw [hQ inst (List.mem_of_mem_filter (List.getElem?_mem hk))]
      exact hj
    refine ⟨inst.jointDualQuats[j], List.getElem?_eq_getElem hjl, ?_⟩
    rw [h7, aggregate_dualQuats,
      flatten_uniform_getElem first.jointDualQuatsSize _ (uniform_dualQuats _ _ hQ) k j
        inst.jointDualQuats (by rw [List.getElem?_map, hk]; rfl) hj]
    exact List.getElem?_eq_getElem hjl
  · rw [h6, hlenM, wrapUInt_of_lt hm]
  · rw [h7, hlenQ, wrapUInt_of_lt hq]

/-- Witness for C10: with two joints per instance, entry `1 * 2 + 1` of the matrix buffer is
joint matrix 1 of the second drawn instance skinned with matrices, and the buffer lengths are
`2 * 2` and `2 * 1`. -/
theorem stride_matches_layout_witness :
    (waitForSize (sampleRenderer 800 600) []).2 = true ∧ selectionValid (sampleRenderer 800 600) ∧
      (sampleRenderer 800 600).mGltfInstances.length < 4294967296 ∧
      ∃ r', draw sampleEnvironment (sampleRenderer 800 600) [] = DrawResult.frame r' ∧
        Call.setUniformValue Shader.gltfGPU 2 ∈ newCalls (sampleRenderer 800 600).calls r' ∧
        r'.mModelJointMatrices[1 * 2 + 1]? = some 41 ∧
        drawInstancedCounts (newCalls (sampleRenderer 800 600).calls r') = [2, 1] ∧
        r'.mModelJointMatrices.length = 2 * 2 ∧ r'.mModelJointDualQuats.length = 2 * 1 := by
  refine ⟨by decide, by decide, by decide, ?_⟩
  obtain ⟨r', c1, c2, h1, h2, -, h4, -, hc, h6, h7⟩ :=
    stride_matches_layout sampleEnvironment (sampleRenderer 800 600) []
      (sampleInstance true skinningMode.linear 1) (by decide) (by decide) (by decide)
      (by decide) (by decide) (by decide)
  have hs := drawInstanced_counts_of_small sampleEnvironment (sampleRenderer 800 600) []
    (by decide) (by decide) (by decide) r' h1
  have hcc : [c1, c2] = [2, 1] := by
    rw [← hc, hs]
    decide
  have e1 : c1 = 2 := by
    have := List.cons.inj hcc
    exact this.1
  have e2 : c2 = 1 := by
    have := List.cons.inj (List.cons.inj hcc).2
    exact this.1
  obtain ⟨m, hm1, hm2⟩ := h4 1 1 (sampleInstance true skinningMode.linear 4) (by decide)
    (by decide)
  have hm : m = 41 := by
    have : (sampleInstance true skinningMode.linear 4).jointMatrices[1]? = some 41 := by decide
    rw [this] at hm1
    exact (Option.some.inj hm1).symm
  rw [hm] at hm2
  rw [e1] at h6
  rw [e2] at h7
  rw [hcc] at hc
  exact ⟨r', h1, h2, hm2, hc, h6, h7⟩

end OGLRenderer
